import Mathlib

/-!
Verification development for the yt-monitor item-processing pipeline.

The Python sources are shallowly embedded: each SQL statement of
`database.py` becomes a pure function on an explicit `DB` state, the
RSS poller of `channels.py` and the orchestrator of `monitor.py` become
folds over entry lists with external collaborators (feed fetch, caption
capture, Whisper, Claude, Trello) supplied as explicit oracle
parameters, and `seeder.py` becomes a fold threading the store, the
seen-this-run set and the seeded list.  Machine-level details that no
pipeline code reads (SQLite housekeeping timestamps `created_at` /
`updated_at`, log output, sleeps) are not modelled.
-/

namespace YtMonitor

/-- One row of the `videos` table (schema in `database.py`).  The
`created_at` / `updated_at` housekeeping columns are maintained by SQLite
defaults and a trigger and are never read by any pipeline code, so they
are omitted.  `published_at` is an epoch-seconds timestamp. -/
structure VideoRecord where
  video_id : String
  channel_id : String
  channel_name : String
  title : String
  published_at : Option Int
  transcript_tier : Option Nat
  transcript_text : Option String
  summary_status : String
  summary_text : Option String
  summary_error : Option String
  tokens_input : Option Nat
  tokens_output : Option Nat
  output_status : String
  output_ref : Option String
  output_error : Option String
deriving DecidableEq, Repr

/-- One row of the `channels` table (schema in `database.py`). -/
structure ChannelRecord where
  channel_id : String
  channel_name : String
  last_checked_at : Option Int
  error_count : Nat
  enabled : Bool
deriving DecidableEq, Repr

/-- The SQLite database state: the `videos` and `channels` tables, each a
list of rows in insertion order (`video_id` / `channel_id` are the
primary keys). -/
structure DB where
  videos : List VideoRecord
  channels : List ChannelRecord
deriving DecidableEq, Repr

/-- Embedded `database.is_video_known`: `SELECT 1 FROM videos WHERE video_id = ?`. -/
def is_video_known (db : DB) (video_id : String) : Bool :=
  db.videos.any (fun r => r.video_id == video_id)

/-- Row lookup by primary key (the row a `WHERE video_id = ?` query sees). -/
def findVideo (db : DB) (video_id : String) : Option VideoRecord :=
  db.videos.find? (fun r => r.video_id == video_id)

/-- The fresh row created by `database.insert_video`: all extraction and
generation fields NULL, `summary_status` and `output_status` at their
schema defaults `'pending'`. -/
def newVideoRecord (video_id channel_id channel_name title : String)
    (published_at : Option Int) : VideoRecord :=
  { video_id := video_id, channel_id := channel_id, channel_name := channel_name,
    title := title, published_at := published_at,
    transcript_tier := none, transcript_text := none,
    summary_status := "pending", summary_text := none, summary_error := none,
    tokens_input := none, tokens_output := none,
    output_status := "pending", output_ref := none, output_error := none }

/-- Embedded `database.insert_video`: `INSERT ... ON CONFLICT(video_id) DO NOTHING` —
insert-if-absent, a no-op when the id is already present. -/
def insert_video (db : DB) (video_id channel_id channel_name title : String)
    (published_at : Option Int) : DB :=
  if is_video_known db video_id then db
  else { db with videos :=
    db.videos ++ [newVideoRecord video_id channel_id channel_name title published_at] }

/-- Embedded `UPDATE videos SET ... WHERE video_id = ?`: apply `g` to every row whose
primary key matches. -/
def updateVideoWhere (db : DB) (video_id : String)
    (g : VideoRecord → VideoRecord) : DB :=
  { db with videos := db.videos.map (fun r => if r.video_id == video_id then g r else r) }

/-- Embedded `database.update_transcript`: sets `transcript_tier` and `transcript_text`. -/
def update_transcript (db : DB) (video_id : String) (tier : Nat) (text : String) : DB :=
  updateVideoWhere db video_id (fun r =>
    { r with transcript_tier := some tier, transcript_text := some text })

/-- Embedded `database.update_summary`: the single UPDATE statement sets all five
generation columns at once; in Python every parameter not supplied by the
caller defaults to `None`, so an omitted argument is written as NULL. -/
def update_summary (db : DB) (video_id status : String)
    (summary_text : Option String) (error : Option String)
    (tokens_input : Option Nat) (tokens_output : Option Nat) : DB :=
  updateVideoWhere db video_id (fun r =>
    { r with summary_status := status, summary_text := summary_text,
             summary_error := error, tokens_input := tokens_input,
             tokens_output := tokens_output })

/-- Embedded `database.update_output`: sets all three delivery columns at once, with
omitted parameters written as NULL. -/
def update_output (db : DB) (video_id status : String)
    (output_ref : Option String) (error : Option String) : DB :=
  updateVideoWhere db video_id (fun r =>
    { r with output_status := status, output_ref := output_ref,
             output_error := error })

/-- The comparison behind `ORDER BY published_at ASC` (SQLite sorts NULLs
first in ascending order). -/
def publishedLe (a b : VideoRecord) : Bool :=
  match a.published_at, b.published_at with
  | none, _ => true
  | some _, none => false
  | some x, some y => decide (x ≤ y)

/-- Embedded `database.get_pending_output_videos`: rows with `summary_status='done'`
and `output_status='pending'`, ordered by `published_at` ascending. -/
def get_pending_output_videos (db : DB) : List VideoRecord :=
  (db.videos.filter
    (fun r => r.summary_status == "done" && r.output_status == "pending")).mergeSort
    publishedLe

/-- Embedded `database.get_all_video_ids`: `SELECT video_id FROM videos`. -/
def get_all_video_ids (db : DB) : List String :=
  db.videos.map (fun r => r.video_id)

/-- The fully-processed row created by `database.mark_video_seen`: columns
not named by its INSERT (`published_at`, `transcript_text`, error and token
columns, `output_ref`) are NULL. -/
def seenVideoRecord (video_id channel_id channel_name title summary : String)
    (transcript_tier : Nat) : VideoRecord :=
  { video_id := video_id, channel_id := channel_id, channel_name := channel_name,
    title := title, published_at := none,
    transcript_tier := some transcript_tier, transcript_text := none,
    summary_status := "done", summary_text := some summary, summary_error := none,
    tokens_input := none, tokens_output := none,
    output_status := "done", output_ref := none, output_error := none }

/-- Embedded `database.mark_video_seen`: `INSERT OR IGNORE` of a fully-processed row
(generation done, delivery done) — a no-op when the id already exists. -/
def mark_video_seen (db : DB) (video_id channel_id channel_name title summary : String)
    (transcript_tier : Nat) : DB :=
  if is_video_known db video_id then db
  else { db with videos :=
    db.videos ++ [seenVideoRecord video_id channel_id channel_name title summary
      transcript_tier] }

/-- Embedded `database.upsert_channel`: insert with schema defaults
(`error_count = 0`, `enabled = 1`) or, on conflict, refresh only
`channel_name`. -/
def upsert_channel (db : DB) (channel_id channel_name : String) : DB :=
  if db.channels.any (fun c => c.channel_id == channel_id) then
    { db with channels := db.channels.map (fun c =>
        if c.channel_id == channel_id then { c with channel_name := channel_name } else c) }
  else
    { db with channels := db.channels ++
        [{ channel_id := channel_id, channel_name := channel_name,
           last_checked_at := none, error_count := 0, enabled := true }] }

/-- Embedded `database.mark_channel_checked`: refresh the timestamp and reset the
error counter. -/
def mark_channel_checked (db : DB) (channel_id : String) (now : Int) : DB :=
  { db with channels := db.channels.map (fun c =>
      if c.channel_id == channel_id then
        { c with last_checked_at := some now, error_count := 0 } else c) }

/-- Embedded `database.increment_channel_error`. -/
def increment_channel_error (db : DB) (channel_id : String) : DB :=
  { db with channels := db.channels.map (fun c =>
      if c.channel_id == channel_id then { c with error_count := c.error_count + 1 } else c) }

/-! The configuration constants of `config.py` that the embedded code reads. -/

/-- Tuneable settings from `config.py` used by the pipeline. -/
structure Config where
  CHANNELS : List (String × String)
  MAX_VIDEO_AGE_DAYS : Nat
  WHISPER_ENABLED : Bool
  TRANSCRIPT_MAX_CHARS : Nat
deriving Repr

/-- The literal values set in `config.py` (one placeholder channel,
`MAX_VIDEO_AGE_DAYS = 3`, `WHISPER_ENABLED = False`,
`TRANSCRIPT_MAX_CHARS = 400_000`). -/
def defaultConfig : Config :=
  { CHANNELS := [("UCv9ztg_Qfj6_kmtWoFWyHYw", "Andrew Smith YT channel (for testing)")],
    MAX_VIDEO_AGE_DAYS := 3,
    WHISPER_ENABLED := false,
    TRANSCRIPT_MAX_CHARS := 400000 }

/-! Embedding of `transcripts.py`, the three-tier extraction pipeline.
External collaborators (the caption client, yt-dlp and Whisper) are
supplied as oracle parameters describing their outcome. -/

/-- Python string slicing `s[:n]`: the first `n` characters. -/
def pyTruncate (s : String) (n : Nat) : String :=
  String.mk (s.data.take n)

/-- Python `str.strip()`: drop whitespace from both ends. -/
def pyStrip (s : String) : String :=
  String.mk (((s.data.dropWhile Char.isWhitespace).reverse.dropWhile
    Char.isWhitespace).reverse)

/-- Embedded `transcripts.TranscriptResult`.  The `language` and
`is_auto_generated` fields are only logged, never read downstream, and
are omitted. -/
structure TranscriptResult where
  tier : Nat
  text : String
deriving DecidableEq, Repr

/-- Outcome of one interaction with the caption client inside
`_fetch_tier1`: any exception, no usable transcript object, or a fetched
transcript given as its snippet texts. -/
inductive Tier1Outcome where
  | raised (e : String)
  | notFound
  | found (snippets : List String)
deriving DecidableEq, Repr

/-- External-collaborator oracle for one call of `get_transcript`:
`tier1 i` is the outcome of the i-th tier-1 capture attempt (the source
body performs exactly one attempt, so only index 0 is ever consulted);
`tier2raw` is the text produced by the yt-dlp + Whisper path, `none`
standing for any tier-2 failure (download error, missing tool, an
exception, or Whisper returning nothing). -/
structure ExtractEnv where
  tier1 : Nat → Tier1Outcome
  tier2raw : Option String

/-- Embedded `transcripts._fetch_tier1`.  The whole body is one `try` block with a
catch-all `except` returning `None`; there is no retry loop, so the
attempt oracle is consulted exactly once (index 0).  On success the
snippet texts are stripped, empty ones dropped, the rest joined with
single spaces, and the result truncated to `TRANSCRIPT_MAX_CHARS`. -/
def fetch_tier1 (cfg : Config) (attempts : Nat → Tier1Outcome)
    (video_id : String) : Option TranscriptResult :=
  match attempts 0 with
  | .raised _ => none
  | .notFound => none
  | .found snippets =>
      some { tier := 1,
             text := pyTruncate
               (String.intercalate " "
                 ((snippets.map pyStrip).filter (fun s => s != "")))
               cfg.TRANSCRIPT_MAX_CHARS }

/-- Embedded `transcripts._fetch_tier2`: returns `None` immediately unless
`WHISPER_ENABLED`; any failure of the download/transcribe path is `None`
(`tier2raw = none`), and an empty transcription is rejected by the
explicit `if not text: return None` check before truncation. -/
def fetch_tier2 (cfg : Config) (tier2raw : Option String)
    (video_id : String) : Option TranscriptResult :=
  if !cfg.WHISPER_ENABLED then none
  else match tier2raw with
    | none => none
    | some t =>
        if t == "" then none
        else some { tier := 2, text := pyTruncate t cfg.TRANSCRIPT_MAX_CHARS }

/-- Embedded `transcripts._fetch_tier3`: metadata-only fallback built from title and
description, with a placeholder when the description is empty. -/
def fetch_tier3 (video_id title description : String) : TranscriptResult :=
  { tier := 3,
    text := "Video Title: " ++ title ++ "\n\nDescription:\n" ++
      (if description == "" then "(no description available)" else description) }

/-- Embedded `transcripts.get_transcript`: the three tiers attempted strictly in
order, first hit wins, tier 3 is the terminal fallback.  (The initial
`time.sleep` has no observable state and is not modelled.) -/
def get_transcript (cfg : Config) (env : ExtractEnv)
    (video_id title description : String) : TranscriptResult :=
  match fetch_tier1 cfg env.tier1 video_id with
  | some r => r
  | none =>
    match fetch_tier2 cfg env.tier2raw video_id with
    | some r => r
    | none => fetch_tier3 video_id title description

/-! Embedding of `channels.py`, the RSS discovery poller. -/

/-- One parsed feed entry as `feedparser` presents it to
`fetch_new_videos_from_rss`: `yt_videoid` may be absent, `title` defaults
to `"Untitled"` via `entry.get`, `published` is the best-effort parse
performed by `_parse_published` (epoch seconds), `summary` is the raw
description. -/
structure FeedEntry where
  yt_videoid : Option String
  title : Option String
  published : Option Int
  summary : Option String
deriving Repr

/-- Outcome of `feedparser.parse` for one channel: the call itself raised,
or it returned a feed with a bozo flag (`bozoBad` models
`feed.bozo and feed.bozo_exception`), an optional HTTP status and the
entry list. -/
inductive FeedResult where
  | parseError
  | parsed (bozoBad : Bool) (status : Option Nat) (entries : List FeedEntry)
deriving Repr

/-- Embedded `channels._is_too_old`: `False` when the age check is disabled
(`MAX_VIDEO_AGE_DAYS == 0`) or the published time is unknown, otherwise
compares against `now - MAX_VIDEO_AGE_DAYS` days. -/
def is_too_old (cfg : Config) (now : Int) (published_at : Option Int) : Bool :=
  if cfg.MAX_VIDEO_AGE_DAYS == 0 then false
  else match published_at with
    | none => false
    | some p => decide (p < now - (cfg.MAX_VIDEO_AGE_DAYS : Int) * 86400)

/-- Embedded `channels.VideoEntry`, the candidate handed downstream.  The optional
YouTube-API enrichment fields (`duration_seconds`, `view_count`, `tags`)
are never read by the processing pipeline and are omitted; enrichment
(disabled by default) touches only those fields. -/
structure VideoEntry where
  video_id : String
  channel_id : String
  channel_name : String
  title : String
  published_at : Option Int
  description : String
deriving DecidableEq, Repr

/-- The per-entry body of the loop in `fetch_new_videos_from_rss`:
discard entries without an id, discard known ids, insert too-old entries
as known with `summary_status = 'skipped'` without emitting them, and
otherwise append a candidate. -/
def rssEntryStep (cfg : Config) (now : Int) (channel_id channel_name : String)
    (st : DB × List VideoEntry) (entry : FeedEntry) : DB × List VideoEntry :=
  match entry.yt_videoid with
  | none => st
  | some video_id =>
    if is_video_known st.1 video_id then st
    else if is_too_old cfg now entry.published then
      (update_summary
        (insert_video st.1 video_id channel_id channel_name
          (entry.title.getD "Untitled") entry.published)
        video_id "skipped" none none none none,
       st.2)
    else
      let v : VideoEntry :=
        { video_id := video_id, channel_id := channel_id,
          channel_name := channel_name, title := entry.title.getD "Untitled",
          published_at := entry.published, description := entry.summary.getD "" }
      (st.1, st.2 ++ [v])

/-- Embedded `channels.fetch_new_videos_from_rss`: a parse exception or a bozo feed
with HTTP status ≥ 400 increments the channel error counter and yields no
candidates; otherwise every entry is processed and the channel is marked
checked. -/
def fetch_new_videos_from_rss (cfg : Config) (now : Int) (db : DB)
    (channel_id channel_name : String) : FeedResult → DB × List VideoEntry
  | .parseError => (increment_channel_error db channel_id, [])
  | .parsed bozoBad status entries =>
    if bozoBad && (match status with | some s => decide (400 ≤ s) | none => false) then
      (increment_channel_error db channel_id, [])
    else
      let st := entries.foldl (rssEntryStep cfg now channel_id channel_name) (db, [])
      (mark_channel_checked st.1 channel_id now, st.2)

/-- The per-channel body of `channels.poll_all_channels`: upsert the
channel row, fetch its feed, persist every returned candidate immediately
(insert-if-absent), and accumulate the candidates.  The optional
YouTube-API enrichment only touches `VideoEntry` fields the pipeline
never reads; the courtesy `time.sleep` is not modelled. -/
def pollChannelStep (cfg : Config) (feeds : String → FeedResult) (now : Int)
    (st : DB × List VideoEntry) (ch : String × String) : DB × List VideoEntry :=
  let db := upsert_channel st.1 ch.1 ch.2
  let fr := fetch_new_videos_from_rss cfg now db ch.1 ch.2 (feeds ch.1)
  let db := fr.2.foldl (fun db v =>
    insert_video db v.video_id v.channel_id v.channel_name v.title v.published_at) fr.1
  (db, st.2 ++ fr.2)

/-- Embedded `channels.poll_all_channels`: iterates over `config.CHANNELS` (the
configured source map); for an empty configuration the result is `[]`,
matching the early return in the source. -/
def poll_all_channels (cfg : Config) (feeds : String → FeedResult) (now : Int)
    (db : DB) : DB × List VideoEntry :=
  cfg.CHANNELS.foldl (pollChannelStep cfg feeds now) (db, [])

/-! Embedding of the orchestrator, `monitor.process_video`. -/

/-- Embedded `summarizer.SummaryResult` (the fields the orchestrator stores). -/
structure SummaryResult where
  text : String
  tokens_input : Nat
  tokens_output : Nat
deriving DecidableEq, Repr

/-- External collaborators of one `process_video` run: the extraction
oracles, the outcome of the Claude summarize call, and the outcome of the
`backend.publish(row)` call for a given row. -/
structure ProcessEnv where
  extract : ExtractEnv
  summarize : Except String SummaryResult
  publish : VideoRecord → Except String String

/-- Step 3 of `monitor.process_video` (lines 147–157): the delivery-pending
rows are listed once, rows for other ids are skipped (`continue`), and for
a matching row `backend.publish(row)` is attempted, recording
`output_status = 'done'` with the returned reference or
`output_status = 'failed'` with the captured error text.  The second
component collects the rows on which a publish call was actually made. -/
def publishFoldStep (publish : VideoRecord → Except String String)
    (video_id : String) (st : DB × List VideoRecord) (row : VideoRecord) :
    DB × List VideoRecord :=
  if row.video_id == video_id then
    match publish row with
    | .ok ref => (update_output st.1 video_id "done" (some ref) none, st.2 ++ [row])
    | .error e => (update_output st.1 video_id "failed" none (some e), st.2 ++ [row])
  else st

/-- Step 3 of `monitor.process_video`, assembled: the pending rows are
listed once up front from the store, then folded through
`publishFoldStep`. -/
def processPublishStep (publish : VideoRecord → Except String String)
    (db : DB) (video_id : String) : DB × List VideoRecord :=
  (get_pending_output_videos db).foldl (publishFoldStep publish video_id) (db, [])

/-- Embedded `monitor.process_video`: transcript → summarize → publish for one
candidate.  The step-1 `except` branch (summary failed with
"Transcript error") is unreachable because `get_transcript` is total (its
body absorbs every collaborator failure); step 2 marks
`summary_status = 'processing'` before the summarize call and then
records done-with-text-and-tokens or failed-with-error. -/
def process_video (cfg : Config) (env : ProcessEnv) (db : DB) (v : VideoEntry) : DB :=
  let t := get_transcript cfg env.extract v.video_id v.title v.description
  let db := update_transcript db v.video_id t.tier t.text
  let db := update_summary db v.video_id "processing" none none none none
  match env.summarize with
  | .error e => update_summary db v.video_id "failed" none (some e) none none
  | .ok res =>
    let db := update_summary db v.video_id "done" (some res.text) none
      (some res.tokens_input) (some res.tokens_output)
    (processPublishStep env.publish db v.video_id).1

/-! Facts about the reference (Trello) destination backend,
`output/trello_backend.py`. -/

/-- Outcome of `backend.publish(row)` (monitor.py line 153) when the active
backend is `TrelloBackend`: the method is declared
`def publish(self, *, video_id, title, channel_name, url, summary,
transcript_tier)` with keyword-only parameters, so the positional call
raises `TypeError` before any Trello API interaction. -/
def trelloPublishOrchestratorCall (row : VideoRecord) : Except String String :=
  Except.error "TypeError: publish() takes 1 positional argument but 2 were given"

/-- Return value of a keyword-matched successful call of
`TrelloBackend.publish`: the method body contains no return statement, so
it returns `None` rather than a card reference. -/
def trelloPublishReturnValue : Option String := none

/-! Embedding of `seeder.py`, the startup backfill reconciler. -/

/-- One entry produced by `seeder._fetch_recent_entries` (entries without a
video id are already dropped there; `published` is carried but never read
downstream). -/
structure SeedEntry where
  video_id : String
  title : String
  url : String
  channel_id : String
deriving Repr

/-- What one successful `_process_seed_entry` run produces: the tier chosen
by `get_transcript` and the summary text from `summarize`; these are the
values passed on to `backend.publish` and `mark_video_seen`. -/
structure SeedData where
  transcript_tier : Nat
  summary : String
deriving Repr

/-- Per-entry collaborator oracle for the seeder: `outcome vid` is `ok`
with the produced data when transcript, summarize and publish all
succeed, and `error e` when the summarize or publish call raises (caught
in `run_seed`, which logs, skips the store write and does not add the id
to `seen_this_run`). -/
structure SeedEnv where
  outcome : String → Except String SeedData

/-- The running state of `run_seed`: the store, the `seen_this_run` set
(exactly the successfully seeded ids, in order) and the `skipped`
counter. -/
structure SeedRun where
  db : DB
  seen_this_run : List String
  skipped : Nat
deriving Repr

/-- The per-entry body of `run_seed`: an entry is skipped iff its id is in
the Trello dedup set or in `seen_this_run`; the local store is
deliberately not consulted (see the "Duplicate guard" comment in
`seeder.py`).  On success the entry is recorded via `mark_video_seen`. -/
def seedEntryStep (env : SeedEnv) (trello_ids : List String)
    (channel_name : String) (st : SeedRun) (e : SeedEntry) : SeedRun :=
  if trello_ids.contains e.video_id || st.seen_this_run.contains e.video_id then
    { st with skipped := st.skipped + 1 }
  else
    match env.outcome e.video_id with
    | .error _ => st
    | .ok d =>
      { db := mark_video_seen st.db e.video_id e.channel_id channel_name
          e.title d.summary d.transcript_tier,
        seen_this_run := st.seen_this_run ++ [e.video_id],
        skipped := st.skipped }

/-- Embedded `seeder.run_seed`: the dedup set is built from
`backend.get_existing_video_ids()` alone (`existing_ids = none` models a
backend without the capability or a failed call, both mapped to the empty
set by `_get_trello_video_ids`), then every configured channel's recent
entries are folded through `seedEntryStep`. -/
def run_seed (cfg : Config) (recent : String → List SeedEntry)
    (existing_ids : Option (List String)) (env : SeedEnv) (db : DB) : SeedRun :=
  let trello_ids := existing_ids.getD []
  cfg.CHANNELS.foldl
    (fun st ch => (recent ch.1).foldl (seedEntryStep env trello_ids ch.2) st)
    { db := db, seen_this_run := [], skipped := 0 }

/-! Concrete sample data used by witness theorems. -/

/-- A concrete fully summarized, delivery-pending row. -/
def sampleDoneRow : VideoRecord :=
  { video_id := "v1"
    channel_id := "c"
    channel_name := "n"
    title := "t"
    published_at := some 5
    transcript_tier := some 1
    transcript_text := some "tx"
    summary_status := "done"
    summary_text := some "old summary"
    summary_error := some "old error"
    tokens_input := some 11
    tokens_output := some 7
    output_status := "pending"
    output_ref := none
    output_error := none }

/-- A one-row store holding `sampleDoneRow`. -/
def sampleDB : DB :=
  { videos := [sampleDoneRow], channels := [] }

/-- A concrete row that has already been delivered
(`output_status = 'done'`). -/
def sampleDeliveredRow : VideoRecord :=
  { sampleDoneRow with output_status := "done", output_ref := some "card-9" }

/-- A one-row store holding `sampleDeliveredRow`. -/
def sampleDeliveredDB : DB :=
  { videos := [sampleDeliveredRow], channels := [] }

/-- A channel row whose `enabled` flag is cleared (paused). -/
def disabledChannelRow : ChannelRecord :=
  { channel_id := "c1"
    channel_name := "Chan"
    last_checked_at := none
    error_count := 0
    enabled := false }

/-- A configuration with one source and the age check disabled. -/
def pollTestConfig : Config :=
  { CHANNELS := [("c1", "Chan")]
    MAX_VIDEO_AGE_DAYS := 0
    WHISPER_ENABLED := false
    TRANSCRIPT_MAX_CHARS := 400000 }

/-- A feed entry for a fresh, unknown video. -/
def freshFeedEntry : FeedEntry :=
  { yt_videoid := some "newvid01234"
    title := some "T"
    published := some 999
    summary := some "d" }

/-- A feed oracle returning one fresh entry for every source. -/
def pollTestFeeds : String → FeedResult :=
  fun _ => FeedResult.parsed false none [freshFeedEntry]

/-- Scenario A candidate: new item `abc12345678` from source S1. -/
def scenarioEntry : VideoEntry :=
  { video_id := "abc12345678"
    channel_id := "S1"
    channel_name := "Src"
    title := "hello"
    published_at := some 1000
    description := "" }

/-- The store right after discovery persisted the scenario A candidate. -/
def scenarioDB : DB :=
  insert_video { videos := [], channels := [] } "abc12345678" "S1" "Src" "hello"
    (some 1000)

/-- Collaborator oracle for scenario A with the Trello backend: tier 1
succeeds with `"hello world"`, the generation call succeeds, and the
publish call is the orchestrator's positional `backend.publish(row)`. -/
def trelloScenarioEnv : ProcessEnv :=
  { extract := { tier1 := fun _ => Tier1Outcome.found ["hello world"],
                 tier2raw := none }
    summarize := Except.ok { text := "a summary", tokens_input := 100,
                             tokens_output := 50 }
    publish := trelloPublishOrchestratorCall }

/-- A backfill entry for item `v1` on channel `c1`. -/
def seedTestEntry : SeedEntry :=
  { video_id := "v1", title := "T", url := "u", channel_id := "c1" }

/-- A seeder oracle for which every entry processes successfully. -/
def seedTestEnv : SeedEnv :=
  { outcome := fun _ => Except.ok { transcript_tier := 3, summary := "s" } }

/-! The complete set of store mutations the pipeline performs.  Every
database write in `channels.py`, `monitor.py` and `seeder.py` is one of
the operations below, with the status constants fixed to what the call
site passes (`dashboard/` and the output backends perform reads only):
insert on discovery, the skipped-mark for too-old entries, transcript
update, the three generation transitions of `process_video`
(`processing`, `done`, `failed`), the two delivery transitions
(`done`, `failed`), the seeder's `mark_video_seen`, and the three
channel-table helpers. -/

/-- One store mutation as actually invoked somewhere in the pipeline. -/
inductive PipelineOp where
  | insertVideo (video_id channel_id channel_name title : String)
      (published_at : Option Int)
  | updateTranscript (video_id : String) (tier : Nat) (text : String)
  | summaryProcessing (video_id : String)
  | summaryDone (video_id text : String) (tin tout : Nat)
  | summaryFailed (video_id err : String)
  | summarySkipped (video_id : String)
  | outputDone (video_id ref : String)
  | outputFailed (video_id err : String)
  | markSeen (video_id channel_id channel_name title summary : String)
      (transcript_tier : Nat)
  | chanUpsert (channel_id channel_name : String)
  | chanChecked (channel_id : String) (now : Int)
  | chanError (channel_id : String)

/-- Interpretation of a pipeline mutation on the store, each mapped to the
embedded `database.py` function with the argument shape of its call
site. -/
def applyPipelineOp : PipelineOp → DB → DB
  | .insertVideo v c n t p, db => insert_video db v c n t p
  | .updateTranscript v tier text, db => update_transcript db v tier text
  | .summaryProcessing v, db => update_summary db v "processing" none none none none
  | .summaryDone v text tin tout, db =>
      update_summary db v "done" (some text) none (some tin) (some tout)
  | .summaryFailed v err, db => update_summary db v "failed" none (some err) none none
  | .summarySkipped v, db => update_summary db v "skipped" none none none none
  | .outputDone v ref, db => update_output db v "done" (some ref) none
  | .outputFailed v err, db => update_output db v "failed" none (some err)
  | .markSeen v c n t s tier, db => mark_video_seen db v c n t s tier
  | .chanUpsert c n, db => upsert_channel db c n
  | .chanChecked c now, db => mark_channel_checked db c now
  | .chanError c, db => increment_channel_error db c

/-! Basic lemmas about the store operations. -/

/-- A found video row matches the key it was looked up by. -/
lemma findVideo_key {db : DB} {vid : String} {r : VideoRecord}
    (h : findVideo db vid = some r) : r.video_id = vid := by
  have := List.find?_some h
  simpa using this

/-- Row lookup after a keyed UPDATE: the same row, transformed iff it
matches the updated key (for update functions that leave the primary key
unchanged). -/
lemma findVideo_updateVideoWhere (db : DB) (tgt : String)
    (g : VideoRecord → VideoRecord) (hg : ∀ r, (g r).video_id = r.video_id)
    (vid : String) :
    findVideo (updateVideoWhere db tgt g) vid
      = (findVideo db vid).map (fun r => if r.video_id == tgt then g r else r) := by
  have hpf : (fun r : VideoRecord => r.video_id == vid) ∘
      (fun r => if r.video_id == tgt then g r else r)
      = (fun r : VideoRecord => r.video_id == vid) := by
    funext r
    by_cases h : (r.video_id == tgt) = true
    · simp only [Function.comp_apply, if_pos h, hg]
    · simp only [Function.comp_apply, if_neg h]
  show List.find? (fun r => r.video_id == vid)
      (db.videos.map (fun r => if r.video_id == tgt then g r else r))
    = Option.map (fun r => if r.video_id == tgt then g r else r)
      (List.find? (fun r => r.video_id == vid) db.videos)
  rw [List.find?_map, hpf]

/-- An unknown id matches no stored row. -/
lemma filter_key_eq_nil_of_not_known {db : DB} {vid : String}
    (h : is_video_known db vid = false) :
    db.videos.filter (fun r => r.video_id == vid) = [] := by
  rw [List.filter_eq_nil_iff]
  intro r hr
  have := List.any_eq_false.mp h r hr
  simpa using this

/-- Embedded `insert_video` on a known id is the SQL no-op of
`ON CONFLICT DO NOTHING`. -/
lemma insert_video_of_known {db : DB} {vid : String}
    (h : is_video_known db vid = true) (c n t : String) (p : Option Int) :
    insert_video db vid c n t p = db := by
  unfold insert_video
  rw [if_pos h]

/-- Embedded `insert_video` on an unknown id appends the fresh row. -/
lemma insert_video_of_not_known {db : DB} {vid : String}
    (h : is_video_known db vid = false) (c n t : String) (p : Option Int) :
    insert_video db vid c n t p
      = { db with videos := db.videos ++ [newVideoRecord vid c n t p] } := by
  unfold insert_video
  rw [if_neg (by simp [h])]

/-- Embedded `mark_video_seen` on a known id is the no-op of `INSERT OR IGNORE`. -/
lemma mark_video_seen_of_known {db : DB} {vid : String}
    (h : is_video_known db vid = true) (c n t s : String) (tr : Nat) :
    mark_video_seen db vid c n t s tr = db := by
  unfold mark_video_seen
  rw [if_pos h]

/-- Embedded `mark_video_seen` on an unknown id appends the fully-processed row. -/
lemma mark_video_seen_of_not_known {db : DB} {vid : String}
    (h : is_video_known db vid = false) (c n t s : String) (tr : Nat) :
    mark_video_seen db vid c n t s tr
      = { db with videos := db.videos ++ [seenVideoRecord vid c n t s tr] } := by
  unfold mark_video_seen
  rw [if_neg (by simp [h])]

/-- After `insert_video` the id is known. -/
lemma known_after_insert (db : DB) (vid c n t : String) (p : Option Int) :
    is_video_known (insert_video db vid c n t p) vid = true := by
  by_cases h : is_video_known db vid = true
  · rw [insert_video_of_known h]
    exact h
  · have hf : is_video_known db vid = false := by simpa using h
    rw [insert_video_of_not_known hf]
    show (db.videos ++ [newVideoRecord vid c n t p]).any _ = true
    simp [List.any_append, newVideoRecord]

/-- After `mark_video_seen` the id is known. -/
lemma known_after_mark_seen (db : DB) (vid c n t s : String) (tr : Nat) :
    is_video_known (mark_video_seen db vid c n t s tr) vid = true := by
  by_cases h : is_video_known db vid = true
  · rw [mark_video_seen_of_known h]
    exact h
  · have hf : is_video_known db vid = false := by simpa using h
    rw [mark_video_seen_of_not_known hf]
    show (db.videos ++ [seenVideoRecord vid c n t s tr]).any _ = true
    simp [List.any_append, seenVideoRecord]

/-! Claim C7 — insert-if-absent semantics -/

/-- C7: calling insert-if-absent (`insert_video`, or the reconciler's
`mark_video_seen`) twice with the same item id results in exactly one
stored record whose fields are those from the first call; re-insertion of
a known id never overwrites any field of the existing record. -/
theorem C7_insert_if_absent :
  (∀ (db : DB) (vid c₁ n₁ t₁ : String) (p₁ : Option Int)
     (c₂ n₂ t₂ : String) (p₂ : Option Int),
    is_video_known db vid = false →
      insert_video (insert_video db vid c₁ n₁ t₁ p₁) vid c₂ n₂ t₂ p₂
        = insert_video db vid c₁ n₁ t₁ p₁
      ∧ (insert_video db vid c₁ n₁ t₁ p₁).videos.filter (fun r => r.video_id == vid)
        = [newVideoRecord vid c₁ n₁ t₁ p₁])
  ∧ (∀ (db : DB) (vid c₁ n₁ t₁ s₁ : String) (tr₁ : Nat)
       (c₂ n₂ t₂ s₂ : String) (tr₂ : Nat),
    is_video_known db vid = false →
      mark_video_seen (mark_video_seen db vid c₁ n₁ t₁ s₁ tr₁) vid c₂ n₂ t₂ s₂ tr₂
        = mark_video_seen db vid c₁ n₁ t₁ s₁ tr₁
      ∧ (mark_video_seen db vid c₁ n₁ t₁ s₁ tr₁).videos.filter
          (fun r => r.video_id == vid)
        = [seenVideoRecord vid c₁ n₁ t₁ s₁ tr₁])
  ∧ (∀ (db : DB) (vid c n t : String) (p : Option Int) (s : String) (tr : Nat),
    is_video_known db vid = true →
      insert_video db vid c n t p = db ∧ mark_video_seen db vid c n t s tr = db) := by
  refine ⟨?_, ?_, ?_⟩
  · intro db vid c₁ n₁ t₁ p₁ c₂ n₂ t₂ p₂ h
    constructor
    · exact insert_video_of_known (known_after_insert db vid c₁ n₁ t₁ p₁) c₂ n₂ t₂ p₂
    · rw [insert_video_of_not_known h]
      show (db.videos ++ [newVideoRecord vid c₁ n₁ t₁ p₁]).filter _ = _
      rw [List.filter_append, filter_key_eq_nil_of_not_known h]
      simp [newVideoRecord]
  · intro db vid c₁ n₁ t₁ s₁ tr₁ c₂ n₂ t₂ s₂ tr₂ h
    constructor
    · exact mark_video_seen_of_known (known_after_mark_seen db vid c₁ n₁ t₁ s₁ tr₁)
        c₂ n₂ t₂ s₂ tr₂
    · rw [mark_video_seen_of_not_known h]
      show (db.videos ++ [seenVideoRecord vid c₁ n₁ t₁ s₁ tr₁]).filter _ = _
      rw [List.filter_append, filter_key_eq_nil_of_not_known h]
      simp [seenVideoRecord]
  · intro db vid c n t p s tr h
    exact ⟨insert_video_of_known h c n t p, mark_video_seen_of_known h c n t s tr⟩

/-- Witness for C7 at a concrete store and id. -/
theorem C7_witness :
    (insert_video (insert_video { videos := [], channels := [] }
        "abc12345678" "C1" "Chan" "T1" (some 100))
        "abc12345678" "C2" "Chan2" "T2" (some 200)
      = insert_video { videos := [], channels := [] }
        "abc12345678" "C1" "Chan" "T1" (some 100))
    ∧ (insert_video { videos := [], channels := [] }
        "abc12345678" "C1" "Chan" "T1" (some 100)).videos.filter
        (fun r => r.video_id == "abc12345678")
      = [newVideoRecord "abc12345678" "C1" "Chan" "T1" (some 100)] :=
  C7_insert_if_absent.1 { videos := [], channels := [] }
    "abc12345678" "C1" "Chan" "T1" (some 100) "C2" "Chan2" "T2" (some 200) (by decide)

/-! Claim C10 — update_summary overwrites every generation field -/

/-- Effect of `update_summary` on the lookup of the updated row: every
generation column receives exactly the supplied argument. -/
lemma findVideo_update_summary {db : DB} {vid : String} {r : VideoRecord}
    (status : String) (t e : Option String) (tin tout : Option Nat)
    (hr : findVideo db vid = some r) :
    findVideo (update_summary db vid status t e tin tout) vid
      = some { r with
               summary_status := status, summary_text := t,
               summary_error := e, tokens_input := tin, tokens_output := tout } := by
  rw [update_summary,
    findVideo_updateVideoWhere db vid
      (fun x => { x with
                  summary_status := status, summary_text := t, summary_error := e,
                  tokens_input := tin, tokens_output := tout })
      (fun _ => rfl) vid,
    hr]
  have hk : (r.video_id == vid) = true := by simp [findVideo_key hr]
  simp only [Option.map_some', if_pos hk]

/-- C10: every call of `update_summary` rewrites all five generation
columns of the matching row at once; parameters the caller omits are
written as NULL, so marking a row `processing` or `skipped` erases any
previously stored summary text, error text and token counts. -/
theorem C10_update_summary_overwrites_all :
  ∀ (db : DB) (vid status : String) (t e : Option String) (tin tout : Option Nat)
    (r : VideoRecord),
    findVideo db vid = some r →
    findVideo (update_summary db vid status t e tin tout) vid
      = some { r with
               summary_status := status, summary_text := t,
               summary_error := e, tokens_input := tin, tokens_output := tout } := by
  intro db vid status t e tin tout r hr
  exact findVideo_update_summary status t e tin tout hr

/-- Witness for C10: marking a fully summarized row `processing` erases
its stored summary, error and token counts. -/
theorem C10_witness :
    findVideo (update_summary sampleDB "v1" "processing" none none none none) "v1"
      = some { sampleDoneRow with
               summary_status := "processing", summary_text := none,
               summary_error := none, tokens_input := none, tokens_output := none } :=
  C10_update_summary_overwrites_all sampleDB "v1" "processing" none none none none
    sampleDoneRow (by decide)

/-! Claim C4 / C5 — the extraction pipeline -/

/-- Python slicing `s[:n]` of a non-empty string with `n > 0` is
non-empty. -/
lemma pyTruncate_ne_empty {s : String} {n : Nat} (hs : s ≠ "") (hn : 0 < n) :
    pyTruncate s n ≠ "" := by
  intro h
  have hd : s.data.take n = [] := congrArg String.data h
  rcases List.take_eq_nil_iff.mp hd with h0 | hnil
  · omega
  · exact hs (String.ext (by rw [hnil]))

/-- The tier-3 fallback text always starts with the non-empty literal
`"Video Title: "`, hence is never empty — even for empty title and
description. -/
lemma fetch_tier3_text_ne_empty (video_id title description : String) :
    (fetch_tier3 video_id title description).text ≠ "" := by
  intro h
  have h2 : (("Video Title: " ++ title ++ "\n\nDescription:\n") ++
      (if description == "" then "(no description available)" else description)).data
      = ([] : List Char) := congrArg String.data h
  rw [String.data_append] at h2
  have h3 := (List.append_eq_nil.mp h2).1
  rw [String.data_append] at h3
  have h4 := (List.append_eq_nil.mp h3).1
  rw [String.data_append] at h4
  have h5 := (List.append_eq_nil.mp h4).1
  exact absurd h5 (by decide)

/-- A tier-1 hit always carries `tier = 1`. -/
lemma fetch_tier1_eq_some {cfg : Config} {o : Nat → Tier1Outcome} {vid : String}
    {r : TranscriptResult} (h : fetch_tier1 cfg o vid = some r) : r.tier = 1 := by
  unfold fetch_tier1 at h
  cases ho : o 0 <;> rw [ho] at h
  · exact absurd h (by simp)
  · exact absurd h (by simp)
  · injection h with h2
    rw [← h2]

/-- A tier-2 hit carries `tier = 2` and non-empty text: the source rejects
an empty transcription (`if not text: return None`) before truncating. -/
lemma fetch_tier2_eq_some {cfg : Config} {t2 : Option String} {vid : String}
    {r : TranscriptResult} (hn : 0 < cfg.TRANSCRIPT_MAX_CHARS)
    (h : fetch_tier2 cfg t2 vid = some r) : r.tier = 2 ∧ r.text ≠ "" := by
  cases hw : cfg.WHISPER_ENABLED with
  | false =>
    have hnone : fetch_tier2 cfg t2 vid = none := by
      unfold fetch_tier2
      rw [hw]
      cases t2 <;> rfl
    rw [hnone] at h
    exact absurd h (by simp)
  | true =>
    cases t2 with
    | none =>
      have hnone : fetch_tier2 cfg none vid = none := by
        unfold fetch_tier2
        rw [hw]
        rfl
      rw [hnone] at h
      exact absurd h (by simp)
    | some t =>
      by_cases he : (t == "") = true
      · have hnone : fetch_tier2 cfg (some t) vid = none := by
          unfold fetch_tier2
          rw [hw]
          show (if (t == "") = true then none else _) = none
          rw [if_pos he]
        rw [hnone] at h
        exact absurd h (by simp)
      · have hsome : fetch_tier2 cfg (some t) vid
            = some { tier := 2, text := pyTruncate t cfg.TRANSCRIPT_MAX_CHARS } := by
          unfold fetch_tier2
          rw [hw]
          show (if (t == "") = true then none else _) = _
          rw [if_neg he]
        rw [hsome] at h
        injection h with h2
        have ht : t ≠ "" := by simpa using he
        rw [← h2]
        exact ⟨rfl, pyTruncate_ne_empty ht hn⟩

/-- Counterexample to C4 as stated: a tier-1 capture that succeeds with an
empty snippet list (a legal outcome of the caption collaborator) makes
`get_transcript` return `tier = 1` with empty text — `_fetch_tier1`, unlike
`_fetch_tier2`, has no emptiness check on its joined text. -/
theorem C4_counterexample :
    ¬ (∀ (env : ExtractEnv) (video_id title description : String),
        (get_transcript defaultConfig env video_id title description).text ≠ "") := by
  intro hall
  exact hall { tier1 := fun _ => Tier1Outcome.found [], tier2raw := none }
    "abc12345678" "Title" "Desc" (by decide)

/-- C4 (amended): `get_transcript` is total (every collaborator failure is
absorbed — it cannot raise), and whenever tier 1 does not hit, the result
is non-empty: a tier-2 hit has non-empty text, and when both tier 1 and
tier 2 fail the result is exactly the tier-3 fallback, which is non-empty
even for empty title and description.  (Only a tier-1 hit whose snippet
texts are all blank can produce empty text.) -/
theorem C4_extract_absorbs_failures :
  ∀ (cfg : Config) (env : ExtractEnv) (video_id title description : String),
    0 < cfg.TRANSCRIPT_MAX_CHARS →
    ((fetch_tier1 cfg env.tier1 video_id = none →
      fetch_tier2 cfg env.tier2raw video_id = none →
      get_transcript cfg env video_id title description
        = fetch_tier3 video_id title description)
     ∧ (fetch_tier3 video_id title description).text ≠ ""
     ∧ ((get_transcript cfg env video_id title description).tier ≠ 1 →
        (get_transcript cfg env video_id title description).text ≠ "")) := by
  intro cfg env vid title desc hn
  refine ⟨?_, fetch_tier3_text_ne_empty vid title desc, ?_⟩
  · intro h1 h2
    unfold get_transcript
    rw [h1, h2]
  · intro htier
    unfold get_transcript at htier ⊢
    cases h1 : fetch_tier1 cfg env.tier1 vid with
    | some r =>
      rw [h1] at htier
      exact absurd (fetch_tier1_eq_some h1) htier
    | none =>
      cases h2 : fetch_tier2 cfg env.tier2raw vid with
      | some r =>
        exact (fetch_tier2_eq_some hn h2).2
      | none =>
        exact fetch_tier3_text_ne_empty vid title desc

/-- Witness for C4 (amended) at a concrete failing tier 1, disabled
tier 2, and empty title and description. -/
theorem C4_witness :
    get_transcript defaultConfig
        { tier1 := fun _ => Tier1Outcome.notFound, tier2raw := none }
        "abc12345678" "" ""
      = fetch_tier3 "abc12345678" "" ""
    ∧ (get_transcript defaultConfig
        { tier1 := fun _ => Tier1Outcome.notFound, tier2raw := none }
        "abc12345678" "" "").text ≠ "" := by
  have h := C4_extract_absorbs_failures defaultConfig
    { tier1 := fun _ => Tier1Outcome.notFound, tier2raw := none }
    "abc12345678" "" "" (by decide)
  exact ⟨h.1 rfl rfl, h.2.2 (by decide)⟩

/-- C5 (what the source actually does): `_fetch_tier1` contains no retry
loop — its result is fully determined by the outcome of the first attempt,
and a transient failure on attempt 0 ends tier 1 immediately with no
backoff sleep (no sleep exists in the function body to model).  The
orchestrator even imports `init_proxies` — the rotation-pool machinery the
claimed retry loop would use — from `transcripts`, where no such function
exists. -/
theorem C5_tier1_no_retry :
  (∀ (cfg : Config) (o o2 : Nat → Tier1Outcome) (video_id : String),
      o 0 = o2 0 → fetch_tier1 cfg o video_id = fetch_tier1 cfg o2 video_id)
  ∧ (∀ (cfg : Config) (e video_id : String),
      fetch_tier1 cfg (fun _ => Tier1Outcome.raised e) video_id = none) := by
  constructor
  · intro cfg o o2 vid h
    unfold fetch_tier1
    rw [h]
  · intro cfg e vid
    rfl

/-- Witness for C5: an oracle failing transiently on attempt 0 but
succeeding on every later attempt is indistinguishable from one failing on
every attempt — tier 1 never reaches a second attempt. -/
theorem C5_witness :
    fetch_tier1 defaultConfig (fun _ => Tier1Outcome.raised "rate limited")
        "abc12345678"
      = fetch_tier1 defaultConfig
        (fun i => if i == 0 then Tier1Outcome.raised "rate limited"
                  else Tier1Outcome.found ["late success"]) "abc12345678"
    ∧ fetch_tier1 defaultConfig (fun _ => Tier1Outcome.raised "rate limited")
        "abc12345678" = none :=
  ⟨C5_tier1_no_retry.1 defaultConfig _ _ "abc12345678" (by decide),
    C5_tier1_no_retry.2 defaultConfig "rate limited" "abc12345678"⟩

/-! Claim C3 — at-most-once delivery -/

/-- A looked-up row witnesses that its id is known. -/
lemma known_of_findVideo {db : DB} {vid : String} {r : VideoRecord}
    (h : findVideo db vid = some r) : is_video_known db vid = true := by
  have h' : List.find? (fun x => x.video_id == vid) db.videos = some r := h
  have hp := List.find?_some h'
  show db.videos.any (fun x => x.video_id == vid) = true
  exact List.any_eq_true.mpr ⟨r, List.mem_of_find?_eq_some h', hp⟩

/-- Membership in the delivery-pending listing, through the ordering. -/
lemma mem_get_pending_output {db : DB} {row : VideoRecord} :
    row ∈ get_pending_output_videos db ↔
      row ∈ db.videos ∧ row.summary_status = "done" ∧ row.output_status = "pending" := by
  unfold get_pending_output_videos
  rw [List.mem_mergeSort, List.mem_filter]
  simp

/-- If no listed row matches the id, the publish fold changes nothing. -/
lemma publish_fold_no_match (publish : VideoRecord → Except String String)
    (vid : String) (rows : List VideoRecord) (init : DB × List VideoRecord)
    (h : ∀ row ∈ rows, (row.video_id == vid) = false) :
    rows.foldl (publishFoldStep publish vid) init = init := by
  induction rows generalizing init with
  | nil => rfl
  | cons a l ih =>
    have ha := h a (by simp)
    show List.foldl _ (publishFoldStep publish vid init a) l = init
    rw [publishFoldStep, if_neg (by simp [ha])]
    exact ih init (fun row hr => h row (by simp [hr]))

/-- Generation-only and delivery updates never move `output_status` to
`pending`: the updated row keeps its old delivery status or receives
`done` / `failed`. -/
lemma output_status_after_update {db : DB} {vid : String} {r r' : VideoRecord}
    (tgt : String) (g : VideoRecord → VideoRecord)
    (hg : ∀ x, (g x).video_id = x.video_id)
    (hgs : ∀ x, (g x).output_status = x.output_status ∨
      (g x).output_status = "done" ∨ (g x).output_status = "failed")
    (hr : findVideo db vid = some r) (hdone : r.output_status = "done")
    (hr' : findVideo (updateVideoWhere db tgt g) vid = some r') :
    r'.output_status ≠ "pending" := by
  rw [findVideo_updateVideoWhere db tgt g hg vid, hr] at hr'
  simp only [Option.map_some'] at hr'
  injection hr' with h2
  by_cases hid : (r.video_id == tgt) = true
  · rw [if_pos hid] at h2
    rcases hgs r with h | h | h <;> rw [← h2, h]
    · rw [hdone]
      decide
    · decide
    · decide
  · rw [if_neg hid] at h2
    rw [← h2, hdone]
    decide

/-- C3: no pipeline store mutation ever transitions a record's delivery
status from `done` back to `pending`, and a second invocation of the
delivery step for an item whose delivery status is already `done` makes
no publish call and leaves the store unchanged (the item is absent from
the delivery-pending listing). -/
theorem C3_at_most_once_delivery :
  (∀ (op : PipelineOp) (db : DB) (vid : String) (r r' : VideoRecord),
      findVideo db vid = some r → r.output_status = "done" →
      findVideo (applyPipelineOp op db) vid = some r' →
      r'.output_status ≠ "pending")
  ∧ (∀ (publish : VideoRecord → Except String String) (db : DB) (vid : String),
      (∀ r ∈ db.videos, r.video_id = vid → r.output_status = "done") →
      processPublishStep publish db vid = (db, [])) := by
  constructor
  · intro op db vid r r' hr hdone hr'
    cases op with
    | insertVideo v c n t p =>
      rw [show applyPipelineOp (.insertVideo v c n t p) db = insert_video db v c n t p
          from rfl] at hr'
      by_cases hk : is_video_known db v = true
      · rw [insert_video_of_known hk] at hr'
        rw [hr] at hr'
        injection hr' with h2
        rw [← h2, hdone]
        decide
      · have hf : is_video_known db v = false := by simpa using hk
        rw [insert_video_of_not_known hf] at hr'
        have hsplit : findVideo { db with
            videos := db.videos ++ [newVideoRecord v c n t p] } vid
            = (findVideo db vid).or
              (List.find? (fun x => x.video_id == vid) [newVideoRecord v c n t p]) := by
          show List.find? _ (db.videos ++ _) = _
          rw [List.find?_append]
          rfl
        rw [hsplit, hr] at hr'
        injection hr' with h2
        rw [← h2, hdone]
        decide
    | updateTranscript v tier text =>
      exact output_status_after_update v
        (fun x => { x with transcript_tier := some tier, transcript_text := some text })
        (fun _ => rfl) (fun x => Or.inl rfl) hr hdone hr'
    | summaryProcessing v =>
      exact output_status_after_update v
        (fun x => { x with
                    summary_status := "processing", summary_text := none,
                    summary_error := none, tokens_input := none, tokens_output := none })
        (fun _ => rfl) (fun x => Or.inl rfl) hr hdone hr'
    | summaryDone v text tin tout =>
      exact output_status_after_update v
        (fun x => { x with
                    summary_status := "done", summary_text := some text,
                    summary_error := none, tokens_input := some tin,
                    tokens_output := some tout })
        (fun _ => rfl) (fun x => Or.inl rfl) hr hdone hr'
    | summaryFailed v err =>
      exact output_status_after_update v
        (fun x => { x with
                    summary_status := "failed", summary_text := none,
                    summary_error := some err, tokens_input := none,
                    tokens_output := none })
        (fun _ => rfl) (fun x => Or.inl rfl) hr hdone hr'
    | summarySkipped v =>
      exact output_status_after_update v
        (fun x => { x with
                    summary_status := "skipped", summary_text := none,
                    summary_error := none, tokens_input := none, tokens_output := none })
        (fun _ => rfl) (fun x => Or.inl rfl) hr hdone hr'
    | outputDone v ref =>
      exact output_status_after_update v
        (fun x => { x with
                    output_status := "done", output_ref := some ref,
                    output_error := none })
        (fun _ => rfl) (fun x => Or.inr (Or.inl rfl)) hr hdone hr'
    | outputFailed v err =>
      exact output_status_after_update v
        (fun x => { x with
                    output_status := "failed", output_ref := none,
                    output_error := some err })
        (fun _ => rfl) (fun x => Or.inr (Or.inr rfl)) hr hdone hr'
    | markSeen v c n t s tier =>
      rw [show applyPipelineOp (.markSeen v c n t s tier) db
          = mark_video_seen db v c n t s tier from rfl] at hr'
      by_cases hk : is_video_known db v = true
      · rw [mark_video_seen_of_known hk] at hr'
        rw [hr] at hr'
        injection hr' with h2
        rw [← h2, hdone]
        decide
      · have hf : is_video_known db v = false := by simpa using hk
        rw [mark_video_seen_of_not_known hf] at hr'
        have hsplit : findVideo { db with
            videos := db.videos ++ [seenVideoRecord v c n t s tier] } vid
            = (findVideo db vid).or
              (List.find? (fun x => x.video_id == vid) [seenVideoRecord v c n t s tier]) := by
          show List.find? _ (db.videos ++ _) = _
          rw [List.find?_append]
          rfl
        rw [hsplit, hr] at hr'
        injection hr' with h2
        rw [← h2, hdone]
        decide
    | chanUpsert c n =>
      have : findVideo (applyPipelineOp (.chanUpsert c n) db) vid = findVideo db vid := by
        show List.find? _ (upsert_channel db c n).videos = _
        unfold upsert_channel
        by_cases hc : db.channels.any (fun x => x.channel_id == c) = true
        · rw [if_pos hc]
          rfl
        · rw [if_neg hc]
          rfl
      rw [this, hr] at hr'
      injection hr' with h2
      rw [← h2, hdone]
      decide
    | chanChecked c now =>
      rw [show findVideo (applyPipelineOp (.chanChecked c now) db) vid
          = findVideo db vid from rfl, hr] at hr'
      injection hr' with h2
      rw [← h2, hdone]
      decide
    | chanError c =>
      rw [show findVideo (applyPipelineOp (.chanError c) db) vid
          = findVideo db vid from rfl, hr] at hr'
      injection hr' with h2
      rw [← h2, hdone]
      decide
  · intro publish db vid h
    apply publish_fold_no_match
    intro row hrow
    rcases mem_get_pending_output.mp hrow with ⟨hmem, _, hpend⟩
    by_cases hid : (row.video_id == vid) = true
    · exfalso
      have hd := h row hmem (by simpa using hid)
      rw [hd] at hpend
      exact absurd hpend (by decide)
    · simpa using hid

/-- Witness for C3: marking a delivered row `processing` cannot revive its
delivery status, and re-running the delivery step on a delivered row is a
no-op. -/
theorem C3_witness :
    ({ sampleDeliveredRow with
       summary_status := "processing", summary_text := none, summary_error := none,
       tokens_input := none, tokens_output := none } : VideoRecord).output_status
      ≠ "pending"
    ∧ processPublishStep (fun _ => Except.ok "new-card") sampleDeliveredDB "v1"
      = (sampleDeliveredDB, []) :=
  ⟨C3_at_most_once_delivery.1 (.summaryProcessing "v1") sampleDeliveredDB "v1"
      sampleDeliveredRow _ (by decide) (by decide) (by decide),
    C3_at_most_once_delivery.2 (fun _ => Except.ok "new-card") sampleDeliveredDB "v1"
      (by decide)⟩

/-! Known-id preservation lemmas: once an item id is in the store, every
pipeline operation keeps it there, and the poller never re-emits it as a
candidate. -/

/-- The key predicate is invariant under a key-preserving row transform. -/
lemma key_pred_comp (tgt vid : String) (g : VideoRecord → VideoRecord)
    (hg : ∀ r, (g r).video_id = r.video_id) :
    ((fun r : VideoRecord => r.video_id == vid) ∘
      (fun r => if r.video_id == tgt then g r else r))
      = fun r : VideoRecord => r.video_id == vid := by
  funext r
  by_cases h : (r.video_id == tgt) = true
  · simp only [Function.comp_apply, if_pos h, hg]
  · simp only [Function.comp_apply, if_neg h]

/-- Keyed UPDATEs do not change which ids are known. -/
lemma is_video_known_updateVideoWhere (db : DB) (tgt : String)
    (g : VideoRecord → VideoRecord) (hg : ∀ r, (g r).video_id = r.video_id)
    (vid : String) :
    is_video_known (updateVideoWhere db tgt g) vid = is_video_known db vid := by
  show (db.videos.map _).any _ = _
  rw [List.any_map, key_pred_comp tgt vid g hg]
  rfl

/-- Embedded `insert_video` keeps every already-known id known. -/
lemma known_mono_insert_video {db : DB} {vid : String}
    (h : is_video_known db vid = true) (v c n t : String) (p : Option Int) :
    is_video_known (insert_video db v c n t p) vid = true := by
  by_cases hk : is_video_known db v = true
  · rw [insert_video_of_known hk]
    exact h
  · have hf : is_video_known db v = false := by simpa using hk
    rw [insert_video_of_not_known hf]
    have h' : db.videos.any (fun r => r.video_id == vid) = true := h
    show (db.videos ++ _).any _ = true
    simp [List.any_append, h']

/-- Embedded `mark_video_seen` keeps every already-known id known. -/
lemma known_mono_mark_seen {db : DB} {vid : String}
    (h : is_video_known db vid = true) (v c n t s : String) (tr : Nat) :
    is_video_known (mark_video_seen db v c n t s tr) vid = true := by
  by_cases hk : is_video_known db v = true
  · rw [mark_video_seen_of_known hk]
    exact h
  · have hf : is_video_known db v = false := by simpa using hk
    rw [mark_video_seen_of_not_known hf]
    have h' : db.videos.any (fun r => r.video_id == vid) = true := h
    show (db.videos ++ _).any _ = true
    simp [List.any_append, h']

/-- Channel-table operations never touch the videos table. -/
lemma upsert_channel_videos (db : DB) (c n : String) :
    (upsert_channel db c n).videos = db.videos := by
  unfold upsert_channel
  by_cases hc : db.channels.any (fun x => x.channel_id == c) = true
  · rw [if_pos hc]
  · rw [if_neg hc]

/-- Entry-step equation: an entry without a video id is discarded. -/
lemma rssEntryStep_eq_noid (cfg : Config) (now : Int) (cid cname : String)
    (st : DB × List VideoEntry) {e : FeedEntry} (he : e.yt_videoid = none) :
    rssEntryStep cfg now cid cname st e = st := by
  unfold rssEntryStep
  rw [he]

/-- Entry-step equation: an already-known id is discarded. -/
lemma rssEntryStep_eq_known (cfg : Config) (now : Int) (cid cname : String)
    (st : DB × List VideoEntry) {e : FeedEntry} {w : String}
    (he : e.yt_videoid = some w) (hw : is_video_known st.1 w = true) :
    rssEntryStep cfg now cid cname st e = st := by
  unfold rssEntryStep
  rw [he]
  show (if is_video_known st.1 w = true then st else _) = st
  rw [if_pos hw]

/-- Entry-step equation: a fresh but too-old entry is inserted as known and
marked `skipped`, and emits no candidate. -/
lemma rssEntryStep_eq_old (cfg : Config) (now : Int) (cid cname : String)
    (st : DB × List VideoEntry) {e : FeedEntry} {w : String}
    (he : e.yt_videoid = some w) (hw : is_video_known st.1 w = false)
    (hold : is_too_old cfg now e.published = true) :
    rssEntryStep cfg now cid cname st e
      = (update_summary
          (insert_video st.1 w cid cname (e.title.getD "Untitled") e.published)
          w "skipped" none none none none,
         st.2) := by
  unfold rssEntryStep
  rw [he]
  show (if is_video_known st.1 w = true then st else _) = _
  rw [if_neg (by simp [hw]), if_pos hold]

/-- Entry-step equation: a fresh and recent entry becomes a candidate. -/
lemma rssEntryStep_eq_fresh (cfg : Config) (now : Int) (cid cname : String)
    (st : DB × List VideoEntry) {e : FeedEntry} {w : String}
    (he : e.yt_videoid = some w) (hw : is_video_known st.1 w = false)
    (hold : is_too_old cfg now e.published = false) :
    rssEntryStep cfg now cid cname st e
      = (st.1, st.2 ++
          [{ video_id := w, channel_id := cid, channel_name := cname,
             title := e.title.getD "Untitled", published_at := e.published,
             description := e.summary.getD "" }]) := by
  unfold rssEntryStep
  rw [he]
  show (if is_video_known st.1 w = true then st else _) = _
  rw [if_neg (by simp [hw]), if_neg (by simp [hold])]

/-- One poller entry step preserves a known id and emits no candidate
carrying it. -/
lemma rssEntryStep_preserves (cfg : Config) (now : Int) (cid cname vid : String)
    (st : DB × List VideoEntry) (e : FeedEntry)
    (hknown : is_video_known st.1 vid = true)
    (hcand : ∀ x ∈ st.2, x.video_id ≠ vid) :
    is_video_known (rssEntryStep cfg now cid cname st e).1 vid = true
    ∧ ∀ x ∈ (rssEntryStep cfg now cid cname st e).2, x.video_id ≠ vid := by
  cases he : e.yt_videoid with
  | none =>
    rw [rssEntryStep_eq_noid cfg now cid cname st he]
    exact ⟨hknown, hcand⟩
  | some w =>
    by_cases hw : is_video_known st.1 w = true
    · rw [rssEntryStep_eq_known cfg now cid cname st he hw]
      exact ⟨hknown, hcand⟩
    · have hwf : is_video_known st.1 w = false := by simpa using hw
      have hne : w ≠ vid := by
        intro heq
        rw [heq, hknown] at hwf
        cases hwf
      by_cases hold : is_too_old cfg now e.published = true
      · rw [rssEntryStep_eq_old cfg now cid cname st he hwf hold]
        refine ⟨?_, hcand⟩
        show is_video_known (updateVideoWhere _ w _) vid = true
        rw [is_video_known_updateVideoWhere
          (insert_video st.1 w cid cname (e.title.getD "Untitled") e.published) w
          (fun r => { r with
                      summary_status := "skipped", summary_text := none,
                      summary_error := none, tokens_input := none,
                      tokens_output := none })
          (fun _ => rfl) vid]
        exact known_mono_insert_video hknown w cid cname (e.title.getD "Untitled")
          e.published
      · have holdf : is_too_old cfg now e.published = false := by simpa using hold
        rw [rssEntryStep_eq_fresh cfg now cid cname st he hwf holdf]
        refine ⟨hknown, ?_⟩
        intro x hx
        rcases List.mem_append.mp hx with h | h
        · exact hcand x h
        · rcases List.mem_singleton.mp h with rfl
          simpa using hne

/-- The poller entry fold preserves a known id and emits no candidate
carrying it. -/
lemma rss_fold_preserves (cfg : Config) (now : Int) (cid cname vid : String)
    (entries : List FeedEntry) (st : DB × List VideoEntry)
    (hknown : is_video_known st.1 vid = true)
    (hcand : ∀ x ∈ st.2, x.video_id ≠ vid) :
    is_video_known (entries.foldl (rssEntryStep cfg now cid cname) st).1 vid = true
    ∧ ∀ x ∈ (entries.foldl (rssEntryStep cfg now cid cname) st).2,
        x.video_id ≠ vid := by
  induction entries generalizing st with
  | nil => exact ⟨hknown, hcand⟩
  | cons a l ih =>
    have hstep := rssEntryStep_preserves cfg now cid cname vid st a hknown hcand
    exact ih (rssEntryStep cfg now cid cname st a) hstep.1 hstep.2

/-- One feed fetch preserves a known id and emits no candidate carrying
it. -/
lemma fetch_new_preserves (cfg : Config) (now : Int) (db : DB)
    (cid cname vid : String) (feed : FeedResult)
    (hknown : is_video_known db vid = true) :
    is_video_known (fetch_new_videos_from_rss cfg now db cid cname feed).1 vid = true
    ∧ ∀ x ∈ (fetch_new_videos_from_rss cfg now db cid cname feed).2,
        x.video_id ≠ vid := by
  cases feed with
  | parseError =>
    refine ⟨hknown, ?_⟩
    intro x hx
    exact absurd hx (List.not_mem_nil x)
  | parsed bozoBad status entries =>
    simp only [fetch_new_videos_from_rss]
    by_cases hb : (bozoBad &&
        (match status with | some s => decide (400 ≤ s) | none => false)) = true
    · rw [if_pos hb]
      refine ⟨hknown, ?_⟩
      intro x hx
      exact absurd hx (List.not_mem_nil x)
    · rw [if_neg hb]
      have hf := rss_fold_preserves cfg now cid cname vid entries (db, [])
        hknown (by simp)
      exact ⟨hf.1, hf.2⟩

/-- Persisting a candidate batch keeps a known id known. -/
lemma known_after_insert_fold {vid : String} (vs : List VideoEntry) {db : DB}
    (h : is_video_known db vid = true) :
    is_video_known (vs.foldl (fun db v =>
      insert_video db v.video_id v.channel_id v.channel_name v.title v.published_at)
      db) vid = true := by
  induction vs generalizing db with
  | nil => exact h
  | cons a l ih =>
    exact ih (known_mono_insert_video h a.video_id a.channel_id a.channel_name
      a.title a.published_at)

/-- One whole channel poll preserves a known id and emits no candidate
carrying it. -/
lemma pollChannelStep_preserves (cfg : Config) (feeds : String → FeedResult)
    (now : Int) (st : DB × List VideoEntry) (ch : String × String) (vid : String)
    (h1 : is_video_known st.1 vid = true) (h2 : ∀ x ∈ st.2, x.video_id ≠ vid) :
    is_video_known (pollChannelStep cfg feeds now st ch).1 vid = true
    ∧ ∀ x ∈ (pollChannelStep cfg feeds now st ch).2, x.video_id ≠ vid := by
  have hup : is_video_known (upsert_channel st.1 ch.1 ch.2) vid = true := by
    show (upsert_channel st.1 ch.1 ch.2).videos.any _ = true
    rw [upsert_channel_videos]
    exact h1
  have hf := fetch_new_preserves cfg now (upsert_channel st.1 ch.1 ch.2)
    ch.1 ch.2 vid (feeds ch.1) hup
  refine ⟨known_after_insert_fold _ hf.1, ?_⟩
  intro x hx
  rcases List.mem_append.mp hx with h | h
  · exact h2 x h
  · exact hf.2 x h

/-- A full poll cycle over a store that already knows an id never returns
that id as a candidate. -/
lemma poll_no_candidate_of_known (cfg : Config) (feeds : String → FeedResult)
    (now : Int) (db : DB) (vid : String)
    (h : is_video_known db vid = true) :
    ∀ x ∈ (poll_all_channels cfg feeds now db).2, x.video_id ≠ vid := by
  suffices hs : ∀ (chs : List (String × String)) (st : DB × List VideoEntry),
      is_video_known st.1 vid = true → (∀ x ∈ st.2, x.video_id ≠ vid) →
      is_video_known (chs.foldl (pollChannelStep cfg feeds now) st).1 vid = true
      ∧ ∀ x ∈ (chs.foldl (pollChannelStep cfg feeds now) st).2, x.video_id ≠ vid by
    exact (hs cfg.CHANNELS (db, []) h (by simp)).2
  intro chs
  induction chs with
  | nil => exact fun st ha hb => ⟨ha, hb⟩
  | cons c t ih =>
    intro st ha hb
    have hstep := pollChannelStep_preserves cfg feeds now st c vid ha hb
    exact ih (pollChannelStep cfg feeds now st c) hstep.1 hstep.2

/-! Claim C9 — delivery failure recorded as failed, not retried -/

/-- A predicate whose filter is a singleton finds exactly that element. -/
lemma find?_of_filter_singleton {l : List VideoRecord} {p : VideoRecord → Bool}
    {r : VideoRecord} (h : l.filter p = [r]) : l.find? p = some r := by
  induction l with
  | nil => simp at h
  | cons a t ih =>
    by_cases ha : p a = true
    · rw [List.filter_cons_of_pos ha] at h
      injection h with h1 h2
      rw [List.find?_cons_of_pos _ ha, h1]
    · rw [List.filter_cons_of_neg ha] at h
      rw [List.find?_cons_of_neg _ ha]
      exact ih h

/-- A singleton filter witnesses membership and the predicate. -/
lemma of_filter_singleton {l : List VideoRecord} {p : VideoRecord → Bool}
    {r : VideoRecord} (h : l.filter p = [r]) : r ∈ l ∧ p r = true := by
  have hr : r ∈ l.filter p := by
    rw [h]
    simp
  exact List.mem_filter.mp hr

/-- When exactly one listed row matches the id and its publish call raises,
the delivery fold records `failed` with the error text and makes exactly
that one publish call. -/
lemma publish_fold_single_error (publish : VideoRecord → Except String String)
    (vid : String) (rows : List VideoRecord) (r : VideoRecord) (e : String)
    (hpub : publish r = Except.error e) :
    ∀ (init : DB × List VideoRecord),
      rows.filter (fun x => x.video_id == vid) = [r] →
      rows.foldl (publishFoldStep publish vid) init
        = (update_output init.1 vid "failed" none (some e), init.2 ++ [r]) := by
  induction rows with
  | nil =>
    intro init hfil
    simp at hfil
  | cons a l ih =>
    intro init hfil
    rw [List.foldl_cons]
    by_cases ha : (a.video_id == vid) = true
    · rw [List.filter_cons_of_pos
        (p := fun x : VideoRecord => x.video_id == vid) (a := a) ha] at hfil
      injection hfil with h1 h2
      have hstep : publishFoldStep publish vid init a
          = (update_output init.1 vid "failed" none (some e), init.2 ++ [r]) := by
        unfold publishFoldStep
        rw [if_pos ha, h1, hpub]
      rw [hstep]
      apply publish_fold_no_match
      intro row hrow
      have := List.filter_eq_nil_iff.mp h2 row hrow
      simpa using this
    · have hstep : publishFoldStep publish vid init a = init := by
        unfold publishFoldStep
        rw [if_neg ha]
      rw [hstep]
      rw [List.filter_cons_of_neg
        (p := fun x : VideoRecord => x.video_id == vid) (a := a) ha] at hfil
      exact ih init hfil

/-- The delivery-pending listing restricted to an id equals the store
restricted to that id, when that row is generation-done and
delivery-pending. -/
lemma pending_filter_singleton {db : DB} {vid : String} {r : VideoRecord}
    (hfil : db.videos.filter (fun x => x.video_id == vid) = [r])
    (hs : r.summary_status = "done") (hp : r.output_status = "pending") :
    (get_pending_output_videos db).filter (fun x => x.video_id == vid) = [r] := by
  have hperm := (List.mergeSort_perm
    (db.videos.filter
      (fun x => x.summary_status == "done" && x.output_status == "pending"))
    publishedLe).filter (fun x => x.video_id == vid)
  have h1 : (db.videos.filter (fun x => x.video_id == vid)).filter
      (fun x => x.summary_status == "done" && x.output_status == "pending") = [r] := by
    rw [hfil]
    have hpr : (r.summary_status == "done" && r.output_status == "pending") = true := by
      rw [hs, hp]
      rfl
    rw [show List.filter
        (fun x => x.summary_status == "done" && x.output_status == "pending") [r]
        = [r] from by
      rw [List.filter_cons_of_pos
        (p := fun x : VideoRecord =>
          x.summary_status == "done" && x.output_status == "pending") (a := r) hpr]
      rfl]
  have hcomp : (db.videos.filter
      (fun x => x.summary_status == "done" && x.output_status == "pending")).filter
      (fun x => x.video_id == vid) = [r] := by
    rw [List.filter_filter]
    rw [List.filter_congr (fun a _ => Bool.and_comm _ _)]
    rw [← List.filter_filter]
    exact h1
  rw [hcomp] at hperm
  exact List.perm_singleton.mp hperm

/-- After recording a delivery failure, the item is no longer
delivery-pending. -/
lemma no_pending_vid_after_failed (db : DB) (vid e : String) :
    ∀ row ∈ get_pending_output_videos (update_output db vid "failed" none (some e)),
      row.video_id ≠ vid := by
  intro row hrow hvid
  rcases mem_get_pending_output.mp hrow with ⟨hmem, _, hp⟩
  have hmem' : row ∈ db.videos.map (fun x => if (x.video_id == vid) = true then
      { x with output_status := "failed", output_ref := none,
               output_error := some e } else x) := hmem
  rcases List.mem_map.mp hmem' with ⟨x, hx, hxeq⟩
  by_cases hid : (x.video_id == vid) = true
  · rw [if_pos hid] at hxeq
    rw [← hxeq] at hp
    simp at hp
  · rw [if_neg hid] at hxeq
    rw [← hxeq] at hvid
    exact hid (by simp [hvid])

/-- C9: when the publish call raises, the orchestrator records
`output_status = 'failed'` with the captured error text (and a NULL
reference) on the item record, the record's generation status stays
`done`, exactly one publish call was made, and the item is retried
neither by the delivery-pending listing nor by any later poll cycle
(its id is known, so it is never re-emitted as a candidate). -/
theorem C9_delivery_failure :
  ∀ (db : DB) (vid : String) (r : VideoRecord) (e : String)
    (publish : VideoRecord → Except String String)
    (cfg : Config) (feeds : String → FeedResult) (now : Int),
    db.videos.filter (fun x => x.video_id == vid) = [r] →
    r.summary_status = "done" → r.output_status = "pending" →
    publish r = Except.error e →
    findVideo (processPublishStep publish db vid).1 vid
        = some { r with
                 output_status := "failed", output_ref := none,
                 output_error := some e }
    ∧ ({ r with
         output_status := "failed", output_ref := none,
         output_error := some e } : VideoRecord).summary_status = "done"
    ∧ (processPublishStep publish db vid).2 = [r]
    ∧ (∀ row ∈ get_pending_output_videos (processPublishStep publish db vid).1,
        row.video_id ≠ vid)
    ∧ (∀ x ∈ (poll_all_channels cfg feeds now (processPublishStep publish db vid).1).2,
        x.video_id ≠ vid) := by
  intro db vid r e publish cfg feeds now hfil hs hp hpub
  have hpend := pending_filter_singleton hfil hs hp
  have hres : processPublishStep publish db vid
      = (update_output db vid "failed" none (some e), [r]) := by
    unfold processPublishStep
    rw [publish_fold_single_error publish vid (get_pending_output_videos db) r e hpub
      (db, []) hpend]
    rfl
  have hkey : (r.video_id == vid) = true := (of_filter_singleton hfil).2
  have hfind : findVideo db vid = some r := find?_of_filter_singleton hfil
  rw [hres]
  refine ⟨?_, hs, rfl, ?_, ?_⟩
  · rw [update_output,
      findVideo_updateVideoWhere db vid
        (fun x => { x with
                    output_status := "failed", output_ref := none,
                    output_error := some e })
        (fun _ => rfl) vid,
      hfind]
    simp only [Option.map_some', if_pos hkey]
  · exact no_pending_vid_after_failed db vid e
  · apply poll_no_candidate_of_known
    show is_video_known (updateVideoWhere _ _ _) vid = true
    rw [is_video_known_updateVideoWhere db vid
      (fun x => { x with
                  output_status := "failed", output_ref := none,
                  output_error := some e })
      (fun _ => rfl) vid]
    exact known_of_findVideo hfind

/-- Witness for C9 at a concrete store and a transport error. -/
theorem C9_witness :
    findVideo (processPublishStep (fun _ => Except.error "socket timeout")
        sampleDB "v1").1 "v1"
      = some { sampleDoneRow with
               output_status := "failed", output_ref := none,
               output_error := some "socket timeout" }
    ∧ (processPublishStep (fun _ => Except.error "socket timeout") sampleDB "v1").2
      = [sampleDoneRow] := by
  have h := C9_delivery_failure sampleDB "v1" sampleDoneRow "socket timeout"
    (fun _ => Except.error "socket timeout") defaultConfig
    (fun _ => FeedResult.parseError) 0 (by decide) (by decide) (by decide) rfl
  exact ⟨h.1, h.2.2.1⟩

/-! Claim C6 — the age filter stores too-old entries as skipped -/

/-- An unknown id is found by no lookup. -/
lemma findVideo_eq_none_of_not_known {db : DB} {vid : String}
    (h : is_video_known db vid = false) : findVideo db vid = none := by
  apply List.find?_eq_none.mpr
  intro x hx
  have := List.any_eq_false.mp h x hx
  simpa using this

/-- Inserting a different id does not change a lookup. -/
lemma findVideo_insert_other {db : DB} {vid w : String} (hnv : w ≠ vid)
    (c n t : String) (p : Option Int) :
    findVideo (insert_video db w c n t p) vid = findVideo db vid := by
  by_cases hk : is_video_known db w = true
  · rw [insert_video_of_known hk]
  · have hf : is_video_known db w = false := by simpa using hk
    rw [insert_video_of_not_known hf]
    show List.find? _ (db.videos ++ _) = _
    rw [List.find?_append]
    have hnew : List.find? (fun r => r.video_id == vid) [newVideoRecord w c n t p]
        = none := by
      simp [newVideoRecord, hnv]
    rw [hnew, Option.or_none]
    rfl

/-- Inserting an unknown id makes it found with the fresh row. -/
lemma findVideo_insert_self {db : DB} {vid : String}
    (hf : is_video_known db vid = false) (c n t : String) (p : Option Int) :
    findVideo (insert_video db vid c n t p) vid
      = some (newVideoRecord vid c n t p) := by
  rw [insert_video_of_not_known hf]
  show List.find? _ (db.videos ++ _) = _
  have h0 : List.find? (fun r => r.video_id == vid) db.videos = none :=
    findVideo_eq_none_of_not_known hf
  rw [List.find?_append, h0]
  show Option.or none _ = _
  rw [Option.none_or]
  have hpos : ((newVideoRecord vid c n t p).video_id == vid) = true := by
    simp [newVideoRecord]
  rw [List.find?_cons_of_pos
    (p := fun r : VideoRecord => r.video_id == vid) _ hpos]

/-- Inserting a different id keeps an unknown id unknown. -/
lemma not_known_insert_other {db : DB} {vid w : String} (hnv : w ≠ vid)
    (hf : is_video_known db vid = false) (c n t : String) (p : Option Int) :
    is_video_known (insert_video db w c n t p) vid = false := by
  by_cases hk : is_video_known db w = true
  · rw [insert_video_of_known hk]
    exact hf
  · have hfw : is_video_known db w = false := by simpa using hk
    rw [insert_video_of_not_known hfw]
    have hf' : db.videos.any (fun r => r.video_id == vid) = false := hf
    show (db.videos ++ _).any _ = false
    simp [List.any_append, hf', newVideoRecord, hnv]

/-- A lookup through a keyed UPDATE on a different key is unchanged. -/
lemma findVideo_update_other {db : DB} {vid w : String} {r : VideoRecord}
    (g : VideoRecord → VideoRecord) (hg : ∀ x, (g x).video_id = x.video_id)
    (hnv : w ≠ vid) (hr : findVideo db vid = some r) :
    findVideo (updateVideoWhere db w g) vid = some r := by
  rw [findVideo_updateVideoWhere db w g hg vid, hr]
  have : (r.video_id == w) = false := by
    have hk := findVideo_key hr
    simp [hk]
    intro hc
    exact hnv hc.symm
  simp only [Option.map_some', this]
  rw [if_neg (by simp [this])]

/-- A none lookup stays none through any keyed UPDATE. -/
lemma findVideo_update_none {db : DB} {vid w : String}
    (g : VideoRecord → VideoRecord) (hg : ∀ x, (g x).video_id = x.video_id)
    (hr : findVideo db vid = none) :
    findVideo (updateVideoWhere db w g) vid = none := by
  rw [findVideo_updateVideoWhere db w g hg vid, hr]
  rfl

/-- Embedded `update_summary` on any key changes no knownness. -/
lemma is_video_known_update_summary (db : DB) (w vid status : String)
    (t e : Option String) (tin tout : Option Nat) :
    is_video_known (update_summary db w status t e tin tout) vid
      = is_video_known db vid :=
  is_video_known_updateVideoWhere db w
    (fun x => { x with
                summary_status := status, summary_text := t, summary_error := e,
                tokens_input := tin, tokens_output := tout })
    (fun _ => rfl) vid

/-- Embedded `update_summary` on a different key leaves a lookup unchanged. -/
lemma findVideo_update_summary_other {db : DB} {vid : String} {r : VideoRecord}
    (w status : String) (t e : Option String) (tin tout : Option Nat)
    (hnv : w ≠ vid) (hr : findVideo db vid = some r) :
    findVideo (update_summary db w status t e tin tout) vid = some r :=
  findVideo_update_other
    (fun x => { x with
                summary_status := status, summary_text := t, summary_error := e,
                tokens_input := tin, tokens_output := tout })
    (fun _ => rfl) hnv hr

/-- Embedded `update_summary` keeps an absent lookup absent. -/
lemma findVideo_update_summary_none {db : DB} {vid : String}
    (w status : String) (t e : Option String) (tin tout : Option Nat)
    (hr : findVideo db vid = none) :
    findVideo (update_summary db w status t e tin tout) vid = none :=
  findVideo_update_none
    (fun x => { x with
                summary_status := status, summary_text := t, summary_error := e,
                tokens_input := tin, tokens_output := tout })
    (fun _ => rfl) hr

/-- One entry step preserves the "already stored as skipped" state, when
every entry carrying the watched id is too old. -/
lemma rssEntryStep_keeps_skipped (cfg : Config) (now : Int) (cid cname vid : String)
    (st : DB × List VideoEntry) (e : FeedEntry)
    (hq : ∃ rec, findVideo st.1 vid = some rec ∧ rec.summary_status = "skipped")
    (hc : ∀ x ∈ st.2, x.video_id ≠ vid) :
    (∃ rec, findVideo (rssEntryStep cfg now cid cname st e).1 vid = some rec
      ∧ rec.summary_status = "skipped")
    ∧ ∀ x ∈ (rssEntryStep cfg now cid cname st e).2, x.video_id ≠ vid := by
  obtain ⟨rec, hrec, hsk⟩ := hq
  cases he : e.yt_videoid with
  | none =>
    rw [rssEntryStep_eq_noid cfg now cid cname st he]
    exact ⟨⟨rec, hrec, hsk⟩, hc⟩
  | some w =>
    by_cases hw : is_video_known st.1 w = true
    · rw [rssEntryStep_eq_known cfg now cid cname st he hw]
      exact ⟨⟨rec, hrec, hsk⟩, hc⟩
    · have hwf : is_video_known st.1 w = false := by simpa using hw
      have hne : w ≠ vid := by
        intro heq
        rw [heq] at hwf
        rw [known_of_findVideo hrec] at hwf
        cases hwf
      by_cases hold : is_too_old cfg now e.published = true
      · rw [rssEntryStep_eq_old cfg now cid cname st he hwf hold]
        refine ⟨⟨rec, ?_, hsk⟩, hc⟩
        exact findVideo_update_summary_other w "skipped" none none none none hne
          (by rw [findVideo_insert_other hne]; exact hrec)
      · have holdf : is_too_old cfg now e.published = false := by simpa using hold
        rw [rssEntryStep_eq_fresh cfg now cid cname st he hwf holdf]
        refine ⟨⟨rec, hrec, hsk⟩, ?_⟩
        intro x hx
        rcases List.mem_append.mp hx with h | h
        · exact hc x h
        · rcases List.mem_singleton.mp h with rfl
          simpa using hne

/-- One entry step starting from a store that does not hold the watched id:
either the id still is not stored (and this entry did not carry it), or it
has just been stored as skipped; no candidate carries it either way. -/
lemma rssEntryStep_age_filter (cfg : Config) (now : Int) (cid cname vid : String)
    (st : DB × List VideoEntry) (e : FeedEntry)
    (hfv : findVideo st.1 vid = none) (hk : is_video_known st.1 vid = false)
    (hc : ∀ x ∈ st.2, x.video_id ≠ vid)
    (hallE : e.yt_videoid = some vid → is_too_old cfg now e.published = true) :
    ((findVideo (rssEntryStep cfg now cid cname st e).1 vid = none
      ∧ is_video_known (rssEntryStep cfg now cid cname st e).1 vid = false
      ∧ (∀ x ∈ (rssEntryStep cfg now cid cname st e).2, x.video_id ≠ vid)
      ∧ e.yt_videoid ≠ some vid)
     ∨ ((∃ rec, findVideo (rssEntryStep cfg now cid cname st e).1 vid = some rec
         ∧ rec.summary_status = "skipped")
        ∧ ∀ x ∈ (rssEntryStep cfg now cid cname st e).2, x.video_id ≠ vid)) := by
  cases he : e.yt_videoid with
  | none =>
    rw [rssEntryStep_eq_noid cfg now cid cname st he]
    exact Or.inl ⟨hfv, hk, hc, by simp⟩
  | some w =>
    by_cases hweq : w = vid
    · subst hweq
      have hold := hallE he
      rw [rssEntryStep_eq_old cfg now cid cname st he hk hold]
      refine Or.inr ⟨?_, hc⟩
      have hins := findVideo_insert_self hk cid cname (e.title.getD "Untitled")
        e.published
      exact ⟨_, findVideo_update_summary "skipped" none none none none hins, rfl⟩
    · by_cases hw : is_video_known st.1 w = true
      · rw [rssEntryStep_eq_known cfg now cid cname st he hw]
        exact Or.inl ⟨hfv, hk, hc, by simp [he, hweq]⟩
      · have hwf : is_video_known st.1 w = false := by simpa using hw
        by_cases hold : is_too_old cfg now e.published = true
        · rw [rssEntryStep_eq_old cfg now cid cname st he hwf hold]
          refine Or.inl ⟨?_, ?_, hc, by simp [he, hweq]⟩
          · exact findVideo_update_summary_none w "skipped" none none none none
              (by rw [findVideo_insert_other hweq]; exact hfv)
          · rw [is_video_known_update_summary]
            exact not_known_insert_other hweq hk cid cname (e.title.getD "Untitled")
              e.published
        · have holdf : is_too_old cfg now e.published = false := by simpa using hold
          rw [rssEntryStep_eq_fresh cfg now cid cname st he hwf holdf]
          refine Or.inl ⟨hfv, hk, ?_, by simp [he, hweq]⟩
          intro x hx
          rcases List.mem_append.mp hx with h | h
          · exact hc x h
          · rcases List.mem_singleton.mp h with rfl
            simpa using hweq

/-- The entry fold under the age filter: starting from a store that does
not hold the watched id, when every entry carrying that id is too old,
either no entry carried the id (and it is still absent), or it ends up
stored with generation-status `skipped`; it never appears among the
candidates. -/
lemma rss_fold_age_filter (cfg : Config) (now : Int) (cid cname vid : String) :
    ∀ (entries : List FeedEntry),
      (∀ e2 ∈ entries, e2.yt_videoid = some vid →
        is_too_old cfg now e2.published = true) →
      (∀ st : DB × List VideoEntry,
        findVideo st.1 vid = none → is_video_known st.1 vid = false →
        (∀ x ∈ st.2, x.video_id ≠ vid) →
        ((findVideo (entries.foldl (rssEntryStep cfg now cid cname) st).1 vid = none
          ∧ (∀ x ∈ (entries.foldl (rssEntryStep cfg now cid cname) st).2,
              x.video_id ≠ vid)
          ∧ ∀ e2 ∈ entries, e2.yt_videoid ≠ some vid)
         ∨ ((∃ rec, findVideo (entries.foldl (rssEntryStep cfg now cid cname) st).1 vid
              = some rec ∧ rec.summary_status = "skipped")
            ∧ ∀ x ∈ (entries.foldl (rssEntryStep cfg now cid cname) st).2,
                x.video_id ≠ vid)))
      ∧ (∀ st : DB × List VideoEntry,
        (∃ rec, findVideo st.1 vid = some rec ∧ rec.summary_status = "skipped") →
        (∀ x ∈ st.2, x.video_id ≠ vid) →
        ((∃ rec, findVideo (entries.foldl (rssEntryStep cfg now cid cname) st).1 vid
            = some rec ∧ rec.summary_status = "skipped")
         ∧ ∀ x ∈ (entries.foldl (rssEntryStep cfg now cid cname) st).2,
             x.video_id ≠ vid)) := by
  intro entries
  induction entries with
  | nil =>
    intro _
    constructor
    · intro st hfv hk hc
      exact Or.inl ⟨hfv, hc, by simp⟩
    · intro st hq hc
      exact ⟨hq, hc⟩
  | cons a l ih =>
    intro hall
    have hallL : ∀ e2 ∈ l, e2.yt_videoid = some vid →
        is_too_old cfg now e2.published = true :=
      fun e2 he2 => hall e2 (by simp [he2])
    constructor
    · intro st hfv hk hc
      rw [List.foldl_cons]
      rcases rssEntryStep_age_filter cfg now cid cname vid st a hfv hk hc
          (hall a (by simp)) with
        ⟨h1, h2, h3, h4⟩ | ⟨hq, hc'⟩
      · rcases (ih hallL).1 _ h1 h2 h3 with ⟨g1, g2, g3⟩ | hgq
        · exact Or.inl ⟨g1, g2, by
            intro e2 he2
            rcases List.mem_cons.mp he2 with rfl | hmem
            · exact h4
            · exact g3 e2 hmem⟩
        · exact Or.inr hgq
      · exact Or.inr ((ih hallL).2 _ hq hc')
    · intro st hq hc
      rw [List.foldl_cons]
      have hstep := rssEntryStep_keeps_skipped cfg now cid cname vid st a hq hc
      exact (ih hallL).2 _ hstep.1 hstep.2

/-- A successfully parsed, non-bozo-rejected feed runs the entry fold and
marks the channel checked. -/
lemma fetch_new_eq_ok (cfg : Config) (now : Int) (db : DB) (cid cname : String)
    (bozoBad : Bool) (status : Option Nat) (entries : List FeedEntry)
    (hb : (bozoBad &&
      (match status with | some s => decide (400 ≤ s) | none => false)) = false) :
    fetch_new_videos_from_rss cfg now db cid cname
        (.parsed bozoBad status entries)
      = (mark_channel_checked
          (entries.foldl (rssEntryStep cfg now cid cname) (db, [])).1 cid now,
         (entries.foldl (rssEntryStep cfg now cid cname) (db, [])).2) := by
  simp only [fetch_new_videos_from_rss]
  rw [if_neg (by simp [hb])]

/-- C6: a polled entry older than the configured cutoff is stored with
generation-status `skipped`, is excluded from the candidate list, and a
second poll of the same feed does not re-emit it.  (The hypotheses say:
the entry carries the watched id, was successfully parsed, every feed
occurrence of that id is too old, and the id was unknown before the
poll.) -/
theorem C6_age_filter :
  ∀ (cfg : Config) (now : Int) (db : DB) (cid cname vid : String)
    (entries : List FeedEntry) (e : FeedEntry) (bozoBad : Bool)
    (status : Option Nat),
    0 < cfg.MAX_VIDEO_AGE_DAYS →
    e ∈ entries → e.yt_videoid = some vid →
    (∀ e2 ∈ entries, e2.yt_videoid = some vid →
      is_too_old cfg now e2.published = true) →
    is_video_known db vid = false →
    (bozoBad &&
      (match status with | some s => decide (400 ≤ s) | none => false)) = false →
    (∃ rec, findVideo (fetch_new_videos_from_rss cfg now db cid cname
        (.parsed bozoBad status entries)).1 vid = some rec
      ∧ rec.summary_status = "skipped")
    ∧ (∀ x ∈ (fetch_new_videos_from_rss cfg now db cid cname
        (.parsed bozoBad status entries)).2, x.video_id ≠ vid)
    ∧ (∀ x ∈ (fetch_new_videos_from_rss cfg now
        (fetch_new_videos_from_rss cfg now db cid cname
          (.parsed bozoBad status entries)).1 cid cname
        (.parsed bozoBad status entries)).2, x.video_id ≠ vid) := by
  intro cfg now db cid cname vid entries e bozoBad status _ hmem he hall hunk hb
  have hfold := (rss_fold_age_filter cfg now cid cname vid entries hall).1 (db, [])
    (findVideo_eq_none_of_not_known hunk) hunk (by simp)
  rcases hfold with ⟨_, _, hnone⟩ | ⟨⟨rec, hrec, hsk⟩, hcands⟩
  · exact absurd he (hnone e hmem)
  · have hfirst : findVideo (fetch_new_videos_from_rss cfg now db cid cname
        (.parsed bozoBad status entries)).1 vid = some rec := by
      rw [fetch_new_eq_ok cfg now db cid cname bozoBad status entries hb]
      exact hrec
    refine ⟨⟨rec, hfirst, hsk⟩, ?_, ?_⟩
    · rw [fetch_new_eq_ok cfg now db cid cname bozoBad status entries hb]
      exact hcands
    · have hknown1 : is_video_known (fetch_new_videos_from_rss cfg now db cid cname
          (.parsed bozoBad status entries)).1 vid = true :=
        known_of_findVideo hfirst
      exact (fetch_new_preserves cfg now _ cid cname vid _ hknown1).2

/-- Witness for C6: max age 3 days, an entry published at epoch 0 polled at
epoch 10⁶ seconds (about 11.6 days later), empty store. -/
theorem C6_witness :
    (∃ rec, findVideo (fetch_new_videos_from_rss defaultConfig 1000000
        { videos := [], channels := [] } "c1" "Chan"
        (FeedResult.parsed false none
          [{ yt_videoid := some "oldvid01234", title := some "Old video",
             published := some 0, summary := some "d" }])).1 "oldvid01234"
        = some rec
      ∧ rec.summary_status = "skipped")
    ∧ (∀ x ∈ (fetch_new_videos_from_rss defaultConfig 1000000
        { videos := [], channels := [] } "c1" "Chan"
        (FeedResult.parsed false none
          [{ yt_videoid := some "oldvid01234", title := some "Old video",
             published := some 0, summary := some "d" }])).2,
        x.video_id ≠ "oldvid01234") := by
  have h := C6_age_filter defaultConfig 1000000 { videos := [], channels := [] }
    "c1" "Chan" "oldvid01234"
    [{ yt_videoid := some "oldvid01234", title := some "Old video",
       published := some 0, summary := some "d" }]
    { yt_videoid := some "oldvid01234", title := some "Old video",
      published := some 0, summary := some "d" }
    false none (by decide) (by simp) rfl (by decide) (by decide) (by decide)
  exact ⟨h.1, h.2.1⟩

/-! Claim C8 — the stored enabled flag is never consulted by the poller -/

/-- Embedded `insert_video` reads and writes only the videos table. -/
lemma insert_video_videos_eq {db db2 : DB} (h : db.videos = db2.videos)
    (v c n t : String) (p : Option Int) :
    (insert_video db v c n t p).videos = (insert_video db2 v c n t p).videos := by
  have hk : is_video_known db v = is_video_known db2 v := by
    unfold is_video_known
    rw [h]
  by_cases hkk : is_video_known db v = true
  · rw [insert_video_of_known hkk, insert_video_of_known (hk ▸ hkk)]
    exact h
  · have hf : is_video_known db v = false := by simpa using hkk
    have hf2 : is_video_known db2 v = false := by rw [← hk]; exact hf
    rw [insert_video_of_not_known hf, insert_video_of_not_known hf2]
    show db.videos ++ _ = db2.videos ++ _
    rw [h]

/-- Embedded `update_summary` reads and writes only the videos table. -/
lemma update_summary_videos_eq {db db2 : DB} (h : db.videos = db2.videos)
    (w status : String) (t e : Option String) (tin tout : Option Nat) :
    (update_summary db w status t e tin tout).videos
      = (update_summary db2 w status t e tin tout).videos := by
  show db.videos.map _ = db2.videos.map _
  rw [h]

/-- One poller entry step is a function of the videos table alone. -/
lemma rssEntryStep_videos_eq (cfg : Config) (now : Int) (cid cname : String)
    {st st2 : DB × List VideoEntry}
    (hv : st.1.videos = st2.1.videos) (hc : st.2 = st2.2) (e : FeedEntry) :
    (rssEntryStep cfg now cid cname st e).1.videos
      = (rssEntryStep cfg now cid cname st2 e).1.videos
    ∧ (rssEntryStep cfg now cid cname st e).2
      = (rssEntryStep cfg now cid cname st2 e).2 := by
  cases he : e.yt_videoid with
  | none =>
    rw [rssEntryStep_eq_noid cfg now cid cname st he,
      rssEntryStep_eq_noid cfg now cid cname st2 he]
    exact ⟨hv, hc⟩
  | some w =>
    have hk : is_video_known st.1 w = is_video_known st2.1 w := by
      unfold is_video_known
      rw [hv]
    by_cases hw : is_video_known st.1 w = true
    · rw [rssEntryStep_eq_known cfg now cid cname st he hw,
        rssEntryStep_eq_known cfg now cid cname st2 he (hk ▸ hw)]
      exact ⟨hv, hc⟩
    · have hwf : is_video_known st.1 w = false := by simpa using hw
      have hwf2 : is_video_known st2.1 w = false := by rw [← hk]; exact hwf
      by_cases hold : is_too_old cfg now e.published = true
      · rw [rssEntryStep_eq_old cfg now cid cname st he hwf hold,
          rssEntryStep_eq_old cfg now cid cname st2 he hwf2 hold]
        exact ⟨update_summary_videos_eq
          (insert_video_videos_eq hv w cid cname (e.title.getD "Untitled") e.published)
          w "skipped" none none none none, hc⟩
      · have holdf : is_too_old cfg now e.published = false := by simpa using hold
        rw [rssEntryStep_eq_fresh cfg now cid cname st he hwf holdf,
          rssEntryStep_eq_fresh cfg now cid cname st2 he hwf2 holdf]
        exact ⟨hv, by rw [hc]⟩

/-- The poller entry fold is a function of the videos table alone. -/
lemma rss_fold_videos_eq (cfg : Config) (now : Int) (cid cname : String)
    (entries : List FeedEntry) :
    ∀ {st st2 : DB × List VideoEntry},
      st.1.videos = st2.1.videos → st.2 = st2.2 →
      (entries.foldl (rssEntryStep cfg now cid cname) st).1.videos
        = (entries.foldl (rssEntryStep cfg now cid cname) st2).1.videos
      ∧ (entries.foldl (rssEntryStep cfg now cid cname) st).2
        = (entries.foldl (rssEntryStep cfg now cid cname) st2).2 := by
  induction entries with
  | nil => exact fun hv hc => ⟨hv, hc⟩
  | cons a l ih =>
    intro st st2 hv hc
    rw [List.foldl_cons, List.foldl_cons]
    have hstep := rssEntryStep_videos_eq cfg now cid cname hv hc a
    exact ih hstep.1 hstep.2

/-- One feed fetch is a function of the videos table alone. -/
lemma fetch_new_videos_eq (cfg : Config) (now : Int) {db db2 : DB}
    (h : db.videos = db2.videos) (cid cname : String) (feed : FeedResult) :
    (fetch_new_videos_from_rss cfg now db cid cname feed).1.videos
      = (fetch_new_videos_from_rss cfg now db2 cid cname feed).1.videos
    ∧ (fetch_new_videos_from_rss cfg now db cid cname feed).2
      = (fetch_new_videos_from_rss cfg now db2 cid cname feed).2 := by
  cases feed with
  | parseError => exact ⟨h, rfl⟩
  | parsed bozoBad status entries =>
    simp only [fetch_new_videos_from_rss]
    by_cases hb : (bozoBad &&
        (match status with | some s => decide (400 ≤ s) | none => false)) = true
    · rw [if_pos hb, if_pos hb]
      exact ⟨h, rfl⟩
    · rw [if_neg hb, if_neg hb]
      exact rss_fold_videos_eq cfg now cid cname entries h rfl

/-- Persisting a candidate batch is a function of the videos table alone. -/
lemma insert_fold_videos_eq (vs : List VideoEntry) :
    ∀ {db db2 : DB}, db.videos = db2.videos →
      (vs.foldl (fun db v => insert_video db v.video_id v.channel_id
        v.channel_name v.title v.published_at) db).videos
      = (vs.foldl (fun db v => insert_video db v.video_id v.channel_id
        v.channel_name v.title v.published_at) db2).videos := by
  induction vs with
  | nil => exact fun h => h
  | cons a l ih =>
    intro db db2 h
    rw [List.foldl_cons, List.foldl_cons]
    exact ih (insert_video_videos_eq h a.video_id a.channel_id a.channel_name
      a.title a.published_at)

/-- One whole channel poll is a function of the videos table alone. -/
lemma pollChannelStep_videos_eq (cfg : Config) (feeds : String → FeedResult)
    (now : Int) {st st2 : DB × List VideoEntry}
    (hv : st.1.videos = st2.1.videos) (hc : st.2 = st2.2) (ch : String × String) :
    (pollChannelStep cfg feeds now st ch).1.videos
      = (pollChannelStep cfg feeds now st2 ch).1.videos
    ∧ (pollChannelStep cfg feeds now st ch).2
      = (pollChannelStep cfg feeds now st2 ch).2 := by
  have h1 : (upsert_channel st.1 ch.1 ch.2).videos
      = (upsert_channel st2.1 ch.1 ch.2).videos := by
    rw [upsert_channel_videos, upsert_channel_videos]
    exact hv
  have h2 := fetch_new_videos_eq cfg now h1 ch.1 ch.2 (feeds ch.1)
  constructor
  · show (List.foldl _ (fetch_new_videos_from_rss cfg now
      (upsert_channel st.1 ch.1 ch.2) ch.1 ch.2 (feeds ch.1)).1 _).videos = _
    rw [h2.2]
    exact insert_fold_videos_eq _ h2.1
  · show st.2 ++ _ = st2.2 ++ _
    rw [hc, h2.2]

/-- Counterexample to C8 as stated: a source whose stored record has
`enabled = 0` is still fetched and still produces candidates — the poller
iterates over `config.CHANNELS` and never reads the `enabled` column. -/
theorem C8_counterexample :
    ({ videos := [], channels := [disabledChannelRow] } : DB).channels.map
      (fun c => (c.channel_id, c.enabled)) = [("c1", false)]
    ∧ (poll_all_channels pollTestConfig pollTestFeeds 1000
        { videos := [], channels := [disabledChannelRow] }).2.map
      (fun v => v.video_id) = ["newvid01234"] := by
  constructor
  · rfl
  · rfl

/-- C8 (amended): the poller polls every source in the configured source
map and never consults the channels table at all — two stores with the
same videos table (for instance differing only in `enabled` flags) yield
exactly the same candidate list. -/
theorem C8_enabled_flag_not_consulted :
  ∀ (cfg : Config) (feeds : String → FeedResult) (now : Int) (db db2 : DB),
    db.videos = db2.videos →
    (poll_all_channels cfg feeds now db).2 = (poll_all_channels cfg feeds now db2).2 := by
  intro cfg feeds now db db2 h
  suffices hs : ∀ (chs : List (String × String)) (st st2 : DB × List VideoEntry),
      st.1.videos = st2.1.videos → st.2 = st2.2 →
      (chs.foldl (pollChannelStep cfg feeds now) st).1.videos
        = (chs.foldl (pollChannelStep cfg feeds now) st2).1.videos
      ∧ (chs.foldl (pollChannelStep cfg feeds now) st).2
        = (chs.foldl (pollChannelStep cfg feeds now) st2).2 by
    exact (hs cfg.CHANNELS (db, []) (db2, []) h rfl).2
  intro chs
  induction chs with
  | nil => exact fun st st2 hv hc => ⟨hv, hc⟩
  | cons c t ih =>
    intro st st2 hv hc
    rw [List.foldl_cons, List.foldl_cons]
    have hstep := pollChannelStep_videos_eq cfg feeds now hv hc c
    exact ih _ _ hstep.1 hstep.2

/-- Witness for C8 (amended): flipping the stored `enabled` flag of the
polled source changes nothing in the returned candidates. -/
theorem C8_witness :
    (poll_all_channels pollTestConfig pollTestFeeds 1000
      { videos := [], channels := [disabledChannelRow] }).2
    = (poll_all_channels pollTestConfig pollTestFeeds 1000
      { videos := [], channels := [{ disabledChannelRow with enabled := true }] }).2 :=
  C8_enabled_flag_not_consulted pollTestConfig pollTestFeeds 1000 _ _ rfl

/-! Claim C2 — with the Trello backend the publish step cannot succeed -/

/-- The delivery step on a store whose only row for the id is
generation-done and delivery-pending, with a publish call that raises:
one failed publish is recorded. -/
lemma processPublishStep_single_error
    (publish : VideoRecord → Except String String) (db : DB) (vid : String)
    (r : VideoRecord) (e : String)
    (hfil : db.videos.filter (fun x => x.video_id == vid) = [r])
    (hs : r.summary_status = "done") (hp : r.output_status = "pending")
    (hpub : publish r = Except.error e) :
    processPublishStep publish db vid
      = (update_output db vid "failed" none (some e), [r]) := by
  unfold processPublishStep
  rw [publish_fold_single_error publish vid (get_pending_output_videos db) r e hpub
    (db, []) (pending_filter_singleton hfil hs hp)]
  rfl

/-- C2 (what the code does at the claim's own scenario A, exposing the
defect): with the reference Trello backend, extraction succeeding at
tier 1 with `"hello world"` and generation succeeding, the final record
has generation done but delivery **failed** with a `TypeError` and a NULL
destination reference — `TrelloBackend.publish` declares keyword-only
parameters and returns `None`, contradicting the `OutputBackend.publish`
contract (`video: sqlite3.Row`, returns a reference string) that
`monitor.py` calls it with. -/
theorem C2_trello_delivery_fails :
    findVideo (process_video defaultConfig trelloScenarioEnv scenarioDB
        scenarioEntry) "abc12345678"
      = some
        { video_id := "abc12345678"
          channel_id := "S1"
          channel_name := "Src"
          title := "hello"
          published_at := some 1000
          transcript_tier := some 1
          transcript_text := some "hello world"
          summary_status := "done"
          summary_text := some "a summary"
          summary_error := none
          tokens_input := some 100
          tokens_output := some 50
          output_status := "failed"
          output_ref := none
          output_error := some
            "TypeError: publish() takes 1 positional argument but 2 were given" }
    ∧ trelloPublishReturnValue = none := by
  constructor
  · have hres := processPublishStep_single_error trelloPublishOrchestratorCall
      (update_summary
        (update_summary
          (update_transcript scenarioDB "abc12345678" 1 "hello world")
          "abc12345678" "processing" none none none none)
        "abc12345678" "done" (some "a summary") none (some 100) (some 50))
      "abc12345678"
      { video_id := "abc12345678"
        channel_id := "S1"
        channel_name := "Src"
        title := "hello"
        published_at := some 1000
        transcript_tier := some 1
        transcript_text := some "hello world"
        summary_status := "done"
        summary_text := some "a summary"
        summary_error := none
        tokens_input := some 100
        tokens_output := some 50
        output_status := "pending"
        output_ref := none
        output_error := none }
      "TypeError: publish() takes 1 positional argument but 2 were given"
      (by decide) (by decide) (by decide) rfl
    show findVideo (processPublishStep trelloPublishOrchestratorCall
      (update_summary
        (update_summary
          (update_transcript scenarioDB "abc12345678" 1 "hello world")
          "abc12345678" "processing" none none none none)
        "abc12345678" "done" (some "a summary") none (some 100) (some 50))
      "abc12345678").1 "abc12345678"
      = some
        { video_id := "abc12345678"
          channel_id := "S1"
          channel_name := "Src"
          title := "hello"
          published_at := some 1000
          transcript_tier := some 1
          transcript_text := some "hello world"
          summary_status := "done"
          summary_text := some "a summary"
          summary_error := none
          tokens_input := some 100
          tokens_output := some 50
          output_status := "failed"
          output_ref := none
          output_error := some
            "TypeError: publish() takes 1 positional argument but 2 were given" }
    rw [hres]
    decide
  · rfl

/-! Claim C1 — the backfill dedup set is destination-only -/

/-- Seeder-step equation: the entry is skipped (dedup hit). -/
lemma seedEntryStep_eq_skip (env : SeedEnv) (trello_ids : List String)
    (cname : String) (st : SeedRun) {e : SeedEntry}
    (h : (trello_ids.contains e.video_id
      || st.seen_this_run.contains e.video_id) = true) :
    seedEntryStep env trello_ids cname st e = { st with skipped := st.skipped + 1 } := by
  unfold seedEntryStep
  rw [if_pos h]

/-- Seeder-step equation: processing the entry raised; nothing recorded. -/
lemma seedEntryStep_eq_err (env : SeedEnv) (trello_ids : List String)
    (cname : String) (st : SeedRun) {e : SeedEntry} {msg : String}
    (h : ¬ (trello_ids.contains e.video_id
      || st.seen_this_run.contains e.video_id) = true)
    (ho : env.outcome e.video_id = Except.error msg) :
    seedEntryStep env trello_ids cname st e = st := by
  unfold seedEntryStep
  rw [if_neg h, ho]

/-- Seeder-step equation: the entry is processed and recorded. -/
lemma seedEntryStep_eq_ok (env : SeedEnv) (trello_ids : List String)
    (cname : String) (st : SeedRun) {e : SeedEntry} {d : SeedData}
    (h : ¬ (trello_ids.contains e.video_id
      || st.seen_this_run.contains e.video_id) = true)
    (ho : env.outcome e.video_id = Except.ok d) :
    seedEntryStep env trello_ids cname st e
      = { db := mark_video_seen st.db e.video_id e.channel_id cname e.title
            d.summary d.transcript_tier,
          seen_this_run := st.seen_this_run ++ [e.video_id],
          skipped := st.skipped } := by
  unfold seedEntryStep
  rw [if_neg h, ho]

/-- An id in the destination dedup set never enters `seen_this_run`. -/
lemma seedEntryStep_no_trello (env : SeedEnv) (trello_ids : List String)
    (cname vid : String) (st : SeedRun) (e : SeedEntry)
    (hvid : trello_ids.contains vid = true)
    (h : vid ∉ st.seen_this_run) :
    vid ∉ (seedEntryStep env trello_ids cname st e).seen_this_run := by
  by_cases hskip : (trello_ids.contains e.video_id
      || st.seen_this_run.contains e.video_id) = true
  · rw [seedEntryStep_eq_skip env trello_ids cname st hskip]
    exact h
  · cases ho : env.outcome e.video_id with
    | error msg =>
      rw [seedEntryStep_eq_err env trello_ids cname st hskip ho]
      exact h
    | ok d =>
      rw [seedEntryStep_eq_ok env trello_ids cname st hskip ho]
      intro hmem
      rcases List.mem_append.mp hmem with hm | hm
      · exact h hm
      · rcases List.mem_singleton.mp hm with rfl
        exact hskip (by rw [hvid]; rfl)

/-- The seeder step's `seen_this_run` and `skipped` do not depend on the
store. -/
lemma seedEntryStep_db_indep (env : SeedEnv) (trello_ids : List String)
    (cname : String) {st st2 : SeedRun}
    (hs : st.seen_this_run = st2.seen_this_run) (hk : st.skipped = st2.skipped)
    (e : SeedEntry) :
    (seedEntryStep env trello_ids cname st e).seen_this_run
      = (seedEntryStep env trello_ids cname st2 e).seen_this_run
    ∧ (seedEntryStep env trello_ids cname st e).skipped
      = (seedEntryStep env trello_ids cname st2 e).skipped := by
  by_cases hskip : (trello_ids.contains e.video_id
      || st.seen_this_run.contains e.video_id) = true
  · have hskip2 : (trello_ids.contains e.video_id
        || st2.seen_this_run.contains e.video_id) = true := by
      rw [← hs]
      exact hskip
    rw [seedEntryStep_eq_skip env trello_ids cname st hskip,
      seedEntryStep_eq_skip env trello_ids cname st2 hskip2]
    exact ⟨hs, by rw [hk]⟩
  · have hskip2 : ¬ (trello_ids.contains e.video_id
        || st2.seen_this_run.contains e.video_id) = true := by
      rw [← hs]
      exact hskip
    cases ho : env.outcome e.video_id with
    | error msg =>
      rw [seedEntryStep_eq_err env trello_ids cname st hskip ho,
        seedEntryStep_eq_err env trello_ids cname st2 hskip2 ho]
      exact ⟨hs, hk⟩
    | ok d =>
      rw [seedEntryStep_eq_ok env trello_ids cname st hskip ho,
        seedEntryStep_eq_ok env trello_ids cname st2 hskip2 ho]
      exact ⟨by rw [hs], hk⟩

/-- An id in the destination dedup set never enters `seen_this_run`
through one channel's entry fold. -/
lemma seed_fold_no_trello (env : SeedEnv) (trello_ids : List String)
    (cname vid : String) (hvid : trello_ids.contains vid = true)
    (es : List SeedEntry) :
    ∀ (st : SeedRun), vid ∉ st.seen_this_run →
      vid ∉ (es.foldl (seedEntryStep env trello_ids cname) st).seen_this_run := by
  induction es with
  | nil => exact fun st h => h
  | cons a l ih =>
    intro st h
    rw [List.foldl_cons]
    exact ih _ (seedEntryStep_no_trello env trello_ids cname vid st a hvid h)

/-- One channel's entry fold keeps `seen_this_run` and `skipped`
independent of the store. -/
lemma seed_fold_db_indep (env : SeedEnv) (trello_ids : List String)
    (cname : String) (es : List SeedEntry) :
    ∀ {st st2 : SeedRun},
      st.seen_this_run = st2.seen_this_run → st.skipped = st2.skipped →
      (es.foldl (seedEntryStep env trello_ids cname) st).seen_this_run
        = (es.foldl (seedEntryStep env trello_ids cname) st2).seen_this_run
      ∧ (es.foldl (seedEntryStep env trello_ids cname) st).skipped
        = (es.foldl (seedEntryStep env trello_ids cname) st2).skipped := by
  induction es with
  | nil => exact fun hs hk => ⟨hs, hk⟩
  | cons a l ih =>
    intro st st2 hs hk
    rw [List.foldl_cons, List.foldl_cons]
    have hstep := seedEntryStep_db_indep env trello_ids cname hs hk a
    exact ih hstep.1 hstep.2

/-- C1 (amended): the Backfill Reconciler's dedup set is only the
destination's `existing-ids()` plus the ids already seeded earlier in the
same run — the local store is deliberately excluded (per the "Duplicate
guard" note in `seeder.py`).  Hence (i) an id reported by the destination
is never seeded even when absent from the local store, and (ii) which
entries get seeded or skipped is completely independent of the local
store's contents — an id present only in the local store is re-processed
rather than skipped. -/
theorem C1_dedup_destination_only :
  (∀ (cfg : Config) (recent : String → List SeedEntry)
     (existing : Option (List String)) (env : SeedEnv) (db : DB) (vid : String),
      (existing.getD []).contains vid = true →
      vid ∉ (run_seed cfg recent existing env db).seen_this_run)
  ∧ (∀ (cfg : Config) (recent : String → List SeedEntry)
     (existing : Option (List String)) (env : SeedEnv) (db db2 : DB),
      (run_seed cfg recent existing env db).seen_this_run
        = (run_seed cfg recent existing env db2).seen_this_run
      ∧ (run_seed cfg recent existing env db).skipped
        = (run_seed cfg recent existing env db2).skipped) := by
  constructor
  · intro cfg recent existing env db vid hvid
    suffices hs : ∀ (chs : List (String × String)) (st : SeedRun),
        vid ∉ st.seen_this_run →
        vid ∉ (chs.foldl (fun st ch =>
          (recent ch.1).foldl (seedEntryStep env (existing.getD []) ch.2) st)
            st).seen_this_run by
      exact hs cfg.CHANNELS { db := db, seen_this_run := [], skipped := 0 }
        (by simp)
    intro chs
    induction chs with
    | nil => exact fun st h => h
    | cons c t ih =>
      intro st h
      rw [List.foldl_cons]
      exact ih _ (seed_fold_no_trello env (existing.getD []) c.2 vid hvid
        (recent c.1) st h)
  · intro cfg recent existing env db db2
    suffices hs : ∀ (chs : List (String × String)) (st st2 : SeedRun),
        st.seen_this_run = st2.seen_this_run → st.skipped = st2.skipped →
        (chs.foldl (fun st ch =>
          (recent ch.1).foldl (seedEntryStep env (existing.getD []) ch.2) st)
            st).seen_this_run
          = (chs.foldl (fun st ch =>
            (recent ch.1).foldl (seedEntryStep env (existing.getD []) ch.2) st)
              st2).seen_this_run
        ∧ (chs.foldl (fun st ch =>
          (recent ch.1).foldl (seedEntryStep env (existing.getD []) ch.2) st)
            st).skipped
          = (chs.foldl (fun st ch =>
            (recent ch.1).foldl (seedEntryStep env (existing.getD []) ch.2) st)
              st2).skipped by
      exact hs cfg.CHANNELS { db := db, seen_this_run := [], skipped := 0 }
        { db := db2, seen_this_run := [], skipped := 0 } rfl rfl
    intro chs
    induction chs with
    | nil => exact fun st st2 hs hk => ⟨hs, hk⟩
    | cons c t ih =>
      intro st st2 hs hk
      rw [List.foldl_cons, List.foldl_cons]
      have hstep := seed_fold_db_indep env (existing.getD []) c.2 (recent c.1) hs hk
      exact ih _ _ hstep.1 hstep.2

/-- Counterexample to C1 as stated: an item id already present in the
local store (and absent from the destination board) is NOT skipped — the
run seeds it (it ends in `seen_this_run`, skip counter zero), because
`run_seed` consults only the Trello id set, never `get_all_video_ids`. -/
theorem C1_counterexample :
    "v1" ∈ get_all_video_ids { videos := [sampleDoneRow], channels := [] }
    ∧ (run_seed pollTestConfig (fun _ => [seedTestEntry]) (some []) seedTestEnv
        { videos := [sampleDoneRow], channels := [] }).seen_this_run = ["v1"]
    ∧ (run_seed pollTestConfig (fun _ => [seedTestEntry]) (some []) seedTestEnv
        { videos := [sampleDoneRow], channels := [] }).skipped = 0 := by
  refine ⟨by decide, rfl, rfl⟩

/-- Witness for C1 (amended): an id on the destination board is skipped
even though the local store is empty, and the seeded set does not change
when the local store already holds the item. -/
theorem C1_witness :
    "v1" ∉ (run_seed pollTestConfig (fun _ => [seedTestEntry]) (some ["v1"])
      seedTestEnv { videos := [], channels := [] }).seen_this_run
    ∧ (run_seed pollTestConfig (fun _ => [seedTestEntry]) (some []) seedTestEnv
        { videos := [sampleDoneRow], channels := [] }).seen_this_run
      = (run_seed pollTestConfig (fun _ => [seedTestEntry]) (some []) seedTestEnv
        { videos := [], channels := [] }).seen_this_run :=
  ⟨C1_dedup_destination_only.1 pollTestConfig (fun _ => [seedTestEntry])
      (some ["v1"]) seedTestEnv { videos := [], channels := [] } "v1" (by decide),
    (C1_dedup_destination_only.2 pollTestConfig (fun _ => [seedTestEntry])
      (some []) seedTestEnv { videos := [sampleDoneRow], channels := [] }
      { videos := [], channels := [] }).1⟩

end YtMonitor
